import Mathlib

/-!
Type-structure matching (`hphp/runtime/base/type-structure-helpers.cpp`)

A shallow embedding of the `is`/`as` descriptor matcher
`checkTypeStructureMatchesCellImpl`, of its two public entry points, and of the
helpers it calls, followed by theorems about them.

Conventions of the embedding:

* a type structure (an `Array` keyed by `kind`, `nullable`, ...) is the record
  `TypeStructure`; the two flags that the code reads with `exists(..) && ..`
  are `Option Bool`, `none` being an absent key;
* a `Cell` is the tagged value; array-like cells carry an `ArrayData`;
* the three `std::string&` out-parameters are threaded as a `Diag` record;
* `always_assert(false)` is the result `none`; a normal return of `b` with the
  strings `d` is `some (b, d)`;
* the class registry, `tname`, `TypeStructure::toString` and `folly::cEscape`
  live outside this file and are the fields of `Env`.
-/

namespace HPHP

/-! ## Values -/

/-- The tags of `DataType`, as enumerated by `expressionTypeToString`. -/
inductive DataType where
  | KindOfUninit
  | KindOfNull
  | KindOfBoolean
  | KindOfInt64
  | KindOfDouble
  | KindOfPersistentString
  | KindOfString
  | KindOfPersistentVec
  | KindOfVec
  | KindOfPersistentDict
  | KindOfDict
  | KindOfPersistentKeyset
  | KindOfKeyset
  | KindOfPersistentArray
  | KindOfArray
  | KindOfObject
  | KindOfResource
  | KindOfRef
  deriving DecidableEq, Repr

/-- An array key: the cells passed to `errOnKey` are either integers or strings. -/
inductive Key where
  | int (num : Int)
  | str (pstr : String)
  deriving DecidableEq, Repr

/-- The layout discriminant of an array: `vecOrVArray` answers `isVecOrVArray()`,
`dictOrDArray` answers `isDictOrDArray()`, `other` answers neither (keysets,
plain arrays). -/
inductive ArrayLayout where
  | vecOrVArray
  | dictOrDArray
  | other
  deriving DecidableEq, Repr

/-- The part of `ArrayData` the matcher reads: the layout discriminant and the
entries in iteration order. -/
structure ArrayData (α : Type) where
  layout : ArrayLayout
  data : List (Key × α)

/-- A class of the registry, known to the matcher through `name()`. -/
structure Class where
  name : String
  deriving DecidableEq, Repr

/-- An object, with the class it was instantiated from. -/
structure ObjectData where
  m_cls : Class
  deriving DecidableEq, Repr

/-- The four array-like families of `DataType`; each has a persistent and a
counted tag. -/
inductive ArrayType where
  | vec
  | dict
  | keyset
  | array
  deriving DecidableEq, Repr

/-- A `Cell`: a typed value that is not a reference (`assertx(tv->m_type != KindOfRef)`). -/
inductive Cell where
  | uninit
  | null
  | boolean (b : Bool)
  | int64 (num : Int)
  | double (bits : Nat)
  | string (persistent : Bool) (pstr : String)
  | arr (family : ArrayType) (persistent : Bool) (parr : ArrayData Cell)
  | object (pobj : ObjectData)
  | resource (pres : Nat)

namespace ArrayData

/-- The method `size()`. -/
def size {α : Type} (a : ArrayData α) : Nat := a.data.length

/-- The method `isVecOrVArray()`. -/
def isVecOrVArray {α : Type} (a : ArrayData α) : Bool :=
  match a.layout with
  | .vecOrVArray => true
  | _ => false

/-- The method `isDictOrDArray()`. -/
def isDictOrDArray {α : Type} (a : ArrayData α) : Bool :=
  match a.layout with
  | .dictOrDArray => true
  | _ => false

/-- Exact-key lookup over the entries. -/
def findIn {α : Type} (k : Key) : List (Key × α) → Option α
  | [] => none
  | (k', v) :: rest => if k = k' then some v else findIn k rest

/-- The pair `exists(k)` / `at(k)`: `none` when `exists(k)` is false, otherwise
the value `at(k)`. -/
def find? {α : Type} (a : ArrayData α) (k : Key) : Option α := findIn k a.data

/-- The values, in iteration order; for a packed array position `i` holds the
value of key `i`. -/
def values {α : Type} (a : ArrayData α) : List α := a.data.map Prod.snd

end ArrayData

namespace Cell

/-- The field `m_type`. -/
def m_type : Cell → DataType
  | uninit => .KindOfUninit
  | null => .KindOfNull
  | boolean _ => .KindOfBoolean
  | int64 _ => .KindOfInt64
  | double _ => .KindOfDouble
  | string true _ => .KindOfPersistentString
  | string false _ => .KindOfString
  | arr .vec true _ => .KindOfPersistentVec
  | arr .vec false _ => .KindOfVec
  | arr .dict true _ => .KindOfPersistentDict
  | arr .dict false _ => .KindOfDict
  | arr .keyset true _ => .KindOfPersistentKeyset
  | arr .keyset false _ => .KindOfKeyset
  | arr .array true _ => .KindOfPersistentArray
  | arr .array false _ => .KindOfArray
  | object _ => .KindOfObject
  | resource _ => .KindOfResource

/-- The field `m_data.parr`, which is meaningful exactly for array-like tags. -/
def parr : Cell → Option (ArrayData Cell)
  | arr _ _ a => some a
  | _ => none

end Cell

/-! ### Tag predicates (`datatype.h`) -/

/-- The predicate `isNullType`: `t <= KindOfNull`, the tags Uninit and Null. -/
def isNullType : DataType → Bool
  | .KindOfUninit | .KindOfNull => true
  | _ => false

/-- The predicate `isIntType`. -/
def isIntType : DataType → Bool
  | .KindOfInt64 => true
  | _ => false

/-- The predicate `isBoolType`. -/
def isBoolType : DataType → Bool
  | .KindOfBoolean => true
  | _ => false

/-- The predicate `isDoubleType`. -/
def isDoubleType : DataType → Bool
  | .KindOfDouble => true
  | _ => false

/-- The predicate `isStringType`: both string tags. -/
def isStringType : DataType → Bool
  | .KindOfPersistentString | .KindOfString => true
  | _ => false

/-- The predicate `isResourceType`. -/
def isResourceType : DataType → Bool
  | .KindOfResource => true
  | _ => false

/-- The predicate `isDictType`: both dict tags. -/
def isDictType : DataType → Bool
  | .KindOfPersistentDict | .KindOfDict => true
  | _ => false

/-- The predicate `isVecType`: both vec tags. -/
def isVecType : DataType → Bool
  | .KindOfPersistentVec | .KindOfVec => true
  | _ => false

/-- The predicate `isKeysetType`: both keyset tags. -/
def isKeysetType : DataType → Bool
  | .KindOfPersistentKeyset | .KindOfKeyset => true
  | _ => false

/-- The predicate `isArrayLikeType`: the eight array, vec, dict and keyset tags. -/
def isArrayLikeType : DataType → Bool
  | .KindOfPersistentVec | .KindOfVec
  | .KindOfPersistentDict | .KindOfDict
  | .KindOfPersistentKeyset | .KindOfKeyset
  | .KindOfPersistentArray | .KindOfArray => true
  | _ => false

/-! ## Type structures -/

/-- The enumeration `TypeStructure::Kind`. -/
inductive TypeStructure.Kind where
  | T_void
  | T_int
  | T_bool
  | T_float
  | T_string
  | T_resource
  | T_num
  | T_arraykey
  | T_noreturn
  | T_mixed
  | T_tuple
  | T_fun
  | T_array
  | T_typevar
  | T_shape
  | T_class
  | T_interface
  | T_trait
  | T_enum
  | T_dict
  | T_vec
  | T_keyset
  | T_vec_or_dict
  | T_nonnull
  | T_unresolved
  | T_typeaccess
  | T_xhp
  deriving DecidableEq, Repr

/-- A type structure: the array read through the keys `kind`, `nullable`,
`optional_shape_field`, `classname`, `elem_types`, `fields` and
`allows_unknown_fields`. An entry of `fields` is itself a type structure, which
carries its own `optional_shape_field` flag. -/
inductive TypeStructure where
  | mk (kind : TypeStructure.Kind) (nullable : Option Bool)
      (optional_shape_field : Option Bool) (classname : String)
      (elem_types : List TypeStructure) (fields : List (Key × TypeStructure))
      (allows_unknown_fields : Option Bool)

namespace TypeStructure

/-- The entry `ts[s_kind]`. -/
def kind : TypeStructure → Kind
  | mk k _ _ _ _ _ _ => k

/-- The entry `ts[s_nullable]`, `none` when the key does not exist. -/
def nullable : TypeStructure → Option Bool
  | mk _ n _ _ _ _ _ => n

/-- The entry `ts[s_optional_shape_field]`, `none` when the key does not exist. -/
def optional_shape_field : TypeStructure → Option Bool
  | mk _ _ o _ _ _ _ => o

/-- The entry `ts[s_classname]`. -/
def classname : TypeStructure → String
  | mk _ _ _ c _ _ _ => c

/-- The entry `ts[s_elem_types]`. -/
def elem_types : TypeStructure → List TypeStructure
  | mk _ _ _ _ e _ _ => e

/-- The entry `ts[s_fields]`. -/
def fields : TypeStructure → List (Key × TypeStructure)
  | mk _ _ _ _ _ f _ => f

/-- The entry `ts[s_allows_unknown_fields]`, `none` when the key does not exist. -/
def allows_unknown_fields : TypeStructure → Option Bool
  | mk _ _ _ _ _ _ a => a

end TypeStructure

/-! ## Collaborators and diagnostics -/

/-- What the matcher calls outside its own file: the class registry
(`Unit::lookupClass`, `enumHasValue`, `interface_supports_*`,
`ObjectData::instanceof`), the tag name `tname`, the renderer
`TypeStructure::toString` and the escaper `folly::cEscape`. -/
structure Env where
  lookupClass : String → Option Class
  enumHasValue : Class → Cell → Bool
  interface_supports_int : String → Bool
  interface_supports_double : String → Bool
  interface_supports_string : String → Bool
  interface_supports_vec : String → Bool
  interface_supports_dict : String → Bool
  interface_supports_keyset : String → Bool
  interface_supports_array : String → Bool
  instanceof : ObjectData → Class → Bool
  tname : DataType → String
  toString : TypeStructure → String
  cEscape : String → String

/-- The three `std::string&` parameters `givenType`, `expectedType`, `errorKey`. -/
structure Diag where
  givenType : String
  expectedType : String
  errorKey : String
  deriving DecidableEq, Repr

/-- Three empty strings, as declared by the non-diagnostic entry point. -/
def Diag.empty : Diag := ⟨"", "", ""⟩

/-- The function `cellInstanceOf(tv, ne)`; the `KindOfRef` arm is excluded by
the type `Cell`. -/
def cellInstanceOf (env : Env) (tv : Cell) (ne : String) : Bool :=
  match tv with
  | .uninit | .null | .boolean _ | .resource _ => false
  | .int64 _ =>
    match env.lookupClass ne with
    | some cls => env.interface_supports_int cls.name
    | none => false
  | .double _ =>
    match env.lookupClass ne with
    | some cls => env.interface_supports_double cls.name
    | none => false
  | .string _ _ =>
    match env.lookupClass ne with
    | some cls => env.interface_supports_string cls.name
    | none => false
  | .arr .vec _ _ =>
    match env.lookupClass ne with
    | some cls => env.interface_supports_vec cls.name
    | none => false
  | .arr .dict _ _ =>
    match env.lookupClass ne with
    | some cls => env.interface_supports_dict cls.name
    | none => false
  | .arr .keyset _ _ =>
    match env.lookupClass ne with
    | some cls => env.interface_supports_keyset cls.name
    | none => false
  | .arr .array _ _ =>
    match env.lookupClass ne with
    | some cls => env.interface_supports_array cls.name
    | none => false
  | .object pobj =>
    match env.lookupClass ne with
    | some cls => env.instanceof pobj cls
    | none => false

/-- The function `shapeAllowsUnknownFields(ts)`. -/
def shapeAllowsUnknownFields (ts : TypeStructure) : Bool :=
  match ts.allows_unknown_fields with
  | some b => b
  | none => false

/-- The function `isOptionalShapeField(field)`. -/
def isOptionalShapeField (field : TypeStructure) : Bool :=
  match field.optional_shape_field with
  | some b => b
  | none => false

/-- The function `expressionTypeToString(type)`. -/
def expressionTypeToString (env : Env) (type : DataType) : String :=
  match type with
  | .KindOfInt64 => "Int"
  | .KindOfPersistentString | .KindOfString => "String"
  | .KindOfPersistentVec | .KindOfVec => "Vec"
  | .KindOfPersistentDict | .KindOfDict => "Dict"
  | .KindOfPersistentKeyset | .KindOfKeyset => "Keyset"
  | .KindOfPersistentArray | .KindOfArray => "Array"
  | .KindOfNull | .KindOfBoolean | .KindOfDouble | .KindOfUninit
  | .KindOfRef | .KindOfObject | .KindOfResource => env.tname type

/-! ## The matcher -/

/-- The lambda `errOnLen(type, len)`: `sformat("{} of length {}", ..)` into `givenType`. -/
def errOnLen (env : Env) (genErrorMessage : Bool) (type : DataType) (len : Nat)
    (d : Diag) : Diag :=
  if genErrorMessage then
    { d with givenType := expressionTypeToString env type ++ " of length " ++ toString len }
  else d

/-- The text `escapedKey` of `errOnKey`: a quoted, escaped string key or a
decimal integer key. -/
def escapedKey (env : Env) (key : Key) : String :=
  match key with
  | .str s => "\"" ++ env.cEscape s ++ "\""
  | .int num => toString num

/-- The lambda `errOnKey(key)`: `sformat("[{}]{}", escapedKey, errorKey)` into `errorKey`. -/
def errOnKey (env : Env) (genErrorMessage : Bool) (key : Key) (d : Diag) : Diag :=
  if genErrorMessage then
    { d with errorKey := "[" ++ escapedKey env key ++ "]" ++ d.errorKey }
  else d

/-- The statements after the `switch` (`if (genErrorMessage && !result) ..;
return result;`), reached by every `break`. -/
def afterSwitch (env : Env) (genErrorMessage : Bool) (ts : TypeStructure)
    (type : DataType) (result : Bool) (d : Diag) : Option (Bool × Diag) :=
  if genErrorMessage && !result then
    some (result,
      { givenType := if d.givenType = "" then expressionTypeToString env type else d.givenType
        expectedType := if d.expectedType = "" then env.toString ts else d.expectedType
        errorKey := d.errorKey })
  else some (result, d)

/-- The first `IterateV` of the shape case: one is added to `numRequiredFields`
for each declared field that is not optional. The counters of the shape case
are natural numbers (the sizes involved are array sizes). -/
def numRequiredFields (tsFields : List (Key × TypeStructure)) : Nat :=
  tsFields.foldl (fun n kv => n + (if isOptionalShapeField kv.2 then 0 else 1)) 0

mutual

/-- The template `checkTypeStructureMatchesCellImpl<genErrorMessage>`. -/
def checkTypeStructureMatchesCellImpl (env : Env) (genErrorMessage : Bool) :
    TypeStructure → Cell → Diag → Option (Bool × Diag)
  | .mk ts_kind nullable osf classname tsElems tsFields auf, c1, d =>
    let ts := TypeStructure.mk ts_kind nullable osf classname tsElems tsFields auf
    let type := c1.m_type
    if nullable = some true ∧ isNullType type = true then some (true, d)
    else
      match ts_kind with
      | .T_int => afterSwitch env genErrorMessage ts type (isIntType type) d
      | .T_bool => afterSwitch env genErrorMessage ts type (isBoolType type) d
      | .T_float => afterSwitch env genErrorMessage ts type (isDoubleType type) d
      | .T_string => afterSwitch env genErrorMessage ts type (isStringType type) d
      | .T_resource => afterSwitch env genErrorMessage ts type (isResourceType type) d
      | .T_num =>
        afterSwitch env genErrorMessage ts type (isIntType type || isDoubleType type) d
      | .T_arraykey =>
        afterSwitch env genErrorMessage ts type (isIntType type || isStringType type) d
      | .T_dict => afterSwitch env genErrorMessage ts type (isDictType type) d
      | .T_vec => afterSwitch env genErrorMessage ts type (isVecType type) d
      | .T_keyset => afterSwitch env genErrorMessage ts type (isKeysetType type) d
      | .T_vec_or_dict =>
        afterSwitch env genErrorMessage ts type (isVecType type || isDictType type) d
      | .T_enum =>
        afterSwitch env genErrorMessage ts type
          (match env.lookupClass classname with
           | some cls => env.enumHasValue cls c1
           | none => false) d
      | .T_class => afterSwitch env genErrorMessage ts type (cellInstanceOf env c1 classname) d
      | .T_interface =>
        afterSwitch env genErrorMessage ts type (cellInstanceOf env c1 classname) d
      | .T_void => afterSwitch env genErrorMessage ts type (isNullType type) d
      | .T_noreturn => afterSwitch env genErrorMessage ts type false d
      | .T_mixed => some (true, d)
      | .T_nonnull => afterSwitch env genErrorMessage ts type (!isNullType type) d
      | .T_tuple =>
        if !isArrayLikeType type then afterSwitch env genErrorMessage ts type false d
        else
          match c1.parr with
          | none => afterSwitch env genErrorMessage ts type false d
          | some elems =>
            if !elems.isVecOrVArray then afterSwitch env genErrorMessage ts type false d
            else if elems.size ≠ tsElems.length then
              afterSwitch env genErrorMessage ts type false
                (errOnLen env genErrorMessage type elems.size d)
            else tupleIterateKV env genErrorMessage tsElems elems.values 0 d
      | .T_shape =>
        if !isArrayLikeType type then afterSwitch env genErrorMessage ts type false d
        else
          match c1.parr with
          | none => afterSwitch env genErrorMessage ts type false d
          | some fields =>
            if !fields.isDictOrDArray then afterSwitch env genErrorMessage ts type false d
            else if fields.size < numRequiredFields tsFields then
              afterSwitch env genErrorMessage ts type false
                (errOnLen env genErrorMessage type fields.size d)
            else if !shapeAllowsUnknownFields ts && fields.size > tsFields.length then
              afterSwitch env genErrorMessage ts type false
                (errOnLen env genErrorMessage type fields.size d)
            else
              match shapeIterateKV env genErrorMessage fields tsFields 0 d with
              | none => none
              | some (false, _, d') => afterSwitch env genErrorMessage ts type false d'
              | some (true, numExpectedFields, d') =>
                some (shapeAllowsUnknownFields ts || fields.size == numExpectedFields, d')
      | .T_array => afterSwitch env genErrorMessage ts type false d
      | .T_unresolved => afterSwitch env genErrorMessage ts type false d
      | .T_typeaccess => afterSwitch env genErrorMessage ts type false d
      | .T_xhp => afterSwitch env genErrorMessage ts type false d
      | .T_fun => none
      | .T_typevar => none
      | .T_trait => none

/-- The loop `PackedArray::IterateKV(elems, ..)` of the tuple case, from position
`k` on: the result is `elemsDidMatch` and the strings. The descriptor
`tsElems->getValue(k)` exists because the sizes were compared before the loop;
the arm without it is unreachable. -/
def tupleIterateKV (env : Env) (genErrorMessage : Bool) :
    List TypeStructure → List Cell → Nat → Diag → Option (Bool × Diag)
  | _, [], _, d => some (true, d)
  | [], _ :: _, _, _ => none
  | ts2 :: tsRest, elem :: rest, k, d =>
    match checkTypeStructureMatchesCellImpl env genErrorMessage ts2 elem d with
    | none => none
    | some (false, d') => some (false, errOnKey env genErrorMessage (.int k) d')
    | some (true, d') => tupleIterateKV env genErrorMessage tsRest rest (k + 1) d'

/-- The loop `IterateKV(tsFields, ..)` of the shape case: the result is
`fieldsDidMatch`, `numExpectedFields` and the strings. -/
def shapeIterateKV (env : Env) (genErrorMessage : Bool) (fields : ArrayData Cell) :
    List (Key × TypeStructure) → Nat → Diag → Option (Bool × Nat × Diag)
  | [], numExpectedFields, d => some (true, numExpectedFields, d)
  | (k, tsField) :: rest, numExpectedFields, d =>
    match fields.find? k with
    | none =>
      if isOptionalShapeField tsField then
        shapeIterateKV env genErrorMessage fields rest numExpectedFields d
      else some (false, numExpectedFields, errOnKey env genErrorMessage k d)
    | some field =>
      match checkTypeStructureMatchesCellImpl env genErrorMessage tsField field d with
      | none => none
      | some (false, d') => some (false, numExpectedFields, errOnKey env genErrorMessage k d')
      | some (true, d') =>
        shapeIterateKV env genErrorMessage fields rest (numExpectedFields + 1) d'

end

/-- The entry point `checkTypeStructureMatchesCell(ts, c1)`: the template at
`false`, on three fresh empty strings that are dropped. -/
def checkTypeStructureMatchesCell (env : Env) (ts : TypeStructure) (c1 : Cell) :
    Option Bool :=
  (checkTypeStructureMatchesCellImpl env false ts c1 Diag.empty).map Prod.fst

/-- The entry point `checkTypeStructureMatchesCell(ts, c1, givenType,
expectedType, errorKey)`: the template at `true`, on the caller's strings. -/
def checkTypeStructureMatchesCellErr (env : Env) (ts : TypeStructure) (c1 : Cell)
    (givenType expectedType errorKey : String) : Option (Bool × Diag) :=
  checkTypeStructureMatchesCellImpl env true ts c1 ⟨givenType, expectedType, errorKey⟩

/-! ## The validators -/

mutual

/-- The function `errorOnIsAsExpressionInvalidTypes(ts)`: `raise_error(msg)` is
the result `.error msg`, a normal return is `.ok ()`. -/
def errorOnIsAsExpressionInvalidTypes : TypeStructure → Except String Unit
  | .mk ts_kind _ _ _ elemsArr tsFields _ =>
    match ts_kind with
    | .T_int => .ok ()
    | .T_bool => .ok ()
    | .T_float => .ok ()
    | .T_string => .ok ()
    | .T_resource => .ok ()
    | .T_num => .ok ()
    | .T_arraykey => .ok ()
    | .T_dict => .ok ()
    | .T_vec => .ok ()
    | .T_keyset => .ok ()
    | .T_vec_or_dict => .ok ()
    | .T_enum => .ok ()
    | .T_class => .ok ()
    | .T_interface => .ok ()
    | .T_void => .ok ()
    | .T_noreturn => .ok ()
    | .T_mixed => .ok ()
    | .T_unresolved => .ok ()
    | .T_typeaccess => .ok ()
    | .T_nonnull => .ok ()
    | .T_xhp => .ok ()
    | .T_array => .error "\"is\" and \"as\" operators cannot be used with an array"
    | .T_fun => .error "\"is\" and \"as\" operators cannot be used with a function"
    | .T_typevar => .error "\"is\" and \"as\" operators cannot be used with a generic type"
    | .T_trait => .error "\"is\" and \"as\" operators cannot be used with a trait"
    | .T_tuple => errorOnIsAsExpressionInvalidTypesList elemsArr
    | .T_shape => errorOnIsAsExpressionInvalidTypesFields tsFields

/-- The function `errorOnIsAsExpressionInvalidTypesList(tsFields)` on the array
of tuple element descriptors: `IterateV` visits the values in order, and an
error raised by one of them ends the iteration. -/
def errorOnIsAsExpressionInvalidTypesList : List TypeStructure → Except String Unit
  | [] => .ok ()
  | v :: rest =>
    match errorOnIsAsExpressionInvalidTypes v with
    | .error msg => .error msg
    | .ok () => errorOnIsAsExpressionInvalidTypesList rest

/-- The function `errorOnIsAsExpressionInvalidTypesList(tsFields)` on the array
of shape fields: `IterateV` visits the field descriptors in order, whatever
their keys. -/
def errorOnIsAsExpressionInvalidTypesFields :
    List (Key × TypeStructure) → Except String Unit
  | [] => .ok ()
  | (_, v) :: rest =>
    match errorOnIsAsExpressionInvalidTypes v with
    | .error msg => .error msg
    | .ok () => errorOnIsAsExpressionInvalidTypesFields rest

end

/-- The function `typeStructureCouldBeNonStatic(ts)`. -/
def typeStructureCouldBeNonStatic (ts : TypeStructure) : Bool :=
  match ts.kind with
  | .T_tuple => true
  | .T_fun => true
  | .T_array => true
  | .T_shape => true
  | .T_class => true
  | .T_interface => true
  | .T_trait => true
  | .T_dict => true
  | .T_vec => true
  | .T_keyset => true
  | .T_vec_or_dict => true
  | .T_unresolved => true
  | .T_typeaccess => true
  | .T_void => false
  | .T_int => false
  | .T_bool => false
  | .T_float => false
  | .T_string => false
  | .T_resource => false
  | .T_num => false
  | .T_arraykey => false
  | .T_noreturn => false
  | .T_mixed => false
  | .T_typevar => false
  | .T_enum => false
  | .T_nonnull => false
  | .T_xhp => false

/-! ## Fixtures for concrete evaluation -/

/-- A renderer by kind name, standing in for `TypeStructure::toString` in `sampleEnv`. -/
def kindName : TypeStructure.Kind → String
  | .T_void => "void"
  | .T_int => "int"
  | .T_bool => "bool"
  | .T_float => "float"
  | .T_string => "string"
  | .T_resource => "resource"
  | .T_num => "num"
  | .T_arraykey => "arraykey"
  | .T_noreturn => "noreturn"
  | .T_mixed => "mixed"
  | .T_tuple => "tuple"
  | .T_fun => "fun"
  | .T_array => "array"
  | .T_typevar => "typevar"
  | .T_shape => "shape"
  | .T_class => "class"
  | .T_interface => "interface"
  | .T_trait => "trait"
  | .T_enum => "enum"
  | .T_dict => "dict"
  | .T_vec => "vec"
  | .T_keyset => "keyset"
  | .T_vec_or_dict => "vec_or_dict"
  | .T_nonnull => "nonnull"
  | .T_unresolved => "unresolved"
  | .T_typeaccess => "typeaccess"
  | .T_xhp => "xhp"

/-- A concrete environment: an empty class registry, tag names for the tags
that `expressionTypeToString` hands to `tname`, rendering by kind name, and an
escaper that leaves its input unchanged. -/
def sampleEnv : Env where
  lookupClass := fun _ => none
  enumHasValue := fun _ _ => false
  interface_supports_int := fun _ => false
  interface_supports_double := fun _ => false
  interface_supports_string := fun _ => false
  interface_supports_vec := fun _ => false
  interface_supports_dict := fun _ => false
  interface_supports_keyset := fun _ => false
  interface_supports_array := fun _ => false
  instanceof := fun _ _ => false
  tname := fun t =>
    match t with
    | .KindOfNull => "Null"
    | .KindOfBoolean => "Bool"
    | .KindOfDouble => "Double"
    | .KindOfUninit => "Uninit"
    | .KindOfRef => "Ref"
    | .KindOfObject => "Object"
    | .KindOfResource => "Resource"
    | _ => "Unknown"
  toString := fun ts => kindName ts.kind
  cEscape := fun s => s

/-- A descriptor of kind `k` with only the `kind` key set. -/
def tsOfKind (k : TypeStructure.Kind) : TypeStructure := .mk k none none "" [] [] none

/-- A descriptor of kind `k` used as a shape field with `optional_shape_field` set. -/
def tsOptional (k : TypeStructure.Kind) : TypeStructure := .mk k none (some true) "" [] [] none

/-- A shape descriptor with the given fields and `allows_unknown_fields` flag. -/
def tsShape (fields : List (Key × TypeStructure)) (allowsUnknownFields : Bool) :
    TypeStructure :=
  .mk .T_shape none none "" [] fields (some allowsUnknownFields)

/-- A tuple descriptor with the given element descriptors. -/
def tsTuple (elems : List TypeStructure) : TypeStructure :=
  .mk .T_tuple none none "" elems [] none

/-- A dict value (record layout) with the given entries. -/
def dictOf (data : List (Key × Cell)) : Cell := .arr .dict false ⟨.dictOrDArray, data⟩

/-- A vec value (list layout) with the given elements at keys `0, 1, ..`. -/
def vecOf (elems : List Cell) : Cell :=
  .arr .vec false ⟨.vecOrVArray, (List.range elems.length).zipWith (fun i c => (Key.int i, c)) elems⟩

/-! ## The matcher without the count pre-checks -/

mutual

/-- The matcher with both count pre-checks of the shape case removed (the tests
`numFields < numRequiredFields` and `!allowsUnknownFields && numFields >
numDefinedFields`), at every nesting level; everything else is
`checkTypeStructureMatchesCellImpl` word for word. -/
def checkTypeStructureMatchesCellImplNoCountChecks (env : Env) (genErrorMessage : Bool) :
    TypeStructure → Cell → Diag → Option (Bool × Diag)
  | .mk ts_kind nullable osf classname tsElems tsFields auf, c1, d =>
    let ts := TypeStructure.mk ts_kind nullable osf classname tsElems tsFields auf
    let type := c1.m_type
    if nullable = some true ∧ isNullType type = true then some (true, d)
    else
      match ts_kind with
      | .T_int => afterSwitch env genErrorMessage ts type (isIntType type) d
      | .T_bool => afterSwitch env genErrorMessage ts type (isBoolType type) d
      | .T_float => afterSwitch env genErrorMessage ts type (isDoubleType type) d
      | .T_string => afterSwitch env genErrorMessage ts type (isStringType type) d
      | .T_resource => afterSwitch env genErrorMessage ts type (isResourceType type) d
      | .T_num =>
        afterSwitch env genErrorMessage ts type (isIntType type || isDoubleType type) d
      | .T_arraykey =>
        afterSwitch env genErrorMessage ts type (isIntType type || isStringType type) d
      | .T_dict => afterSwitch env genErrorMessage ts type (isDictType type) d
      | .T_vec => afterSwitch env genErrorMessage ts type (isVecType type) d
      | .T_keyset => afterSwitch env genErrorMessage ts type (isKeysetType type) d
      | .T_vec_or_dict =>
        afterSwitch env genErrorMessage ts type (isVecType type || isDictType type) d
      | .T_enum =>
        afterSwitch env genErrorMessage ts type
          (match env.lookupClass classname with
           | some cls => env.enumHasValue cls c1
           | none => false) d
      | .T_class => afterSwitch env genErrorMessage ts type (cellInstanceOf env c1 classname) d
      | .T_interface =>
        afterSwitch env genErrorMessage ts type (cellInstanceOf env c1 classname) d
      | .T_void => afterSwitch env genErrorMessage ts type (isNullType type) d
      | .T_noreturn => afterSwitch env genErrorMessage ts type false d
      | .T_mixed => some (true, d)
      | .T_nonnull => afterSwitch env genErrorMessage ts type (!isNullType type) d
      | .T_tuple =>
        if !isArrayLikeType type then afterSwitch env genErrorMessage ts type false d
        else
          match c1.parr with
          | none => afterSwitch env genErrorMessage ts type false d
          | some elems =>
            if !elems.isVecOrVArray then afterSwitch env genErrorMessage ts type false d
            else if elems.size ≠ tsElems.length then
              afterSwitch env genErrorMessage ts type false
                (errOnLen env genErrorMessage type elems.size d)
            else tupleIterateKVNoCountChecks env genErrorMessage tsElems elems.values 0 d
      | .T_shape =>
        if !isArrayLikeType type then afterSwitch env genErrorMessage ts type false d
        else
          match c1.parr with
          | none => afterSwitch env genErrorMessage ts type false d
          | some fields =>
            if !fields.isDictOrDArray then afterSwitch env genErrorMessage ts type false d
            else
              match shapeIterateKVNoCountChecks env genErrorMessage fields tsFields 0 d with
              | none => none
              | some (false, _, d') => afterSwitch env genErrorMessage ts type false d'
              | some (true, numExpectedFields, d') =>
                some (shapeAllowsUnknownFields ts || fields.size == numExpectedFields, d')
      | .T_array => afterSwitch env genErrorMessage ts type false d
      | .T_unresolved => afterSwitch env genErrorMessage ts type false d
      | .T_typeaccess => afterSwitch env genErrorMessage ts type false d
      | .T_xhp => afterSwitch env genErrorMessage ts type false d
      | .T_fun => none
      | .T_typevar => none
      | .T_trait => none

/-- The tuple loop of the matcher without count pre-checks. The loop
`PackedArray::IterateKV(elems, ..)` of the tuple case, from position
`k` on: the result is `elemsDidMatch` and the strings. The descriptor
`tsElems->getValue(k)` exists because the sizes were compared before the loop;
the arm without it is unreachable. -/
def tupleIterateKVNoCountChecks (env : Env) (genErrorMessage : Bool) :
    List TypeStructure → List Cell → Nat → Diag → Option (Bool × Diag)
  | _, [], _, d => some (true, d)
  | [], _ :: _, _, _ => none
  | ts2 :: tsRest, elem :: rest, k, d =>
    match checkTypeStructureMatchesCellImplNoCountChecks env genErrorMessage ts2 elem d with
    | none => none
    | some (false, d') => some (false, errOnKey env genErrorMessage (.int k) d')
    | some (true, d') => tupleIterateKVNoCountChecks env genErrorMessage tsRest rest (k + 1) d'

/-- The shape loop of the matcher without count pre-checks. The loop
`IterateKV(tsFields, ..)` of the shape case: the result is
`fieldsDidMatch`, `numExpectedFields` and the strings. -/
def shapeIterateKVNoCountChecks (env : Env) (genErrorMessage : Bool) (fields : ArrayData Cell) :
    List (Key × TypeStructure) → Nat → Diag → Option (Bool × Nat × Diag)
  | [], numExpectedFields, d => some (true, numExpectedFields, d)
  | (k, tsField) :: rest, numExpectedFields, d =>
    match fields.find? k with
    | none =>
      if isOptionalShapeField tsField then
        shapeIterateKVNoCountChecks env genErrorMessage fields rest numExpectedFields d
      else some (false, numExpectedFields, errOnKey env genErrorMessage k d)
    | some field =>
      match checkTypeStructureMatchesCellImplNoCountChecks env genErrorMessage tsField field d with
      | none => none
      | some (false, d') => some (false, numExpectedFields, errOnKey env genErrorMessage k d')
      | some (true, d') =>
        shapeIterateKVNoCountChecks env genErrorMessage fields rest (numExpectedFields + 1) d'

end

/-- The non-diagnostic entry point over the matcher without count pre-checks. -/
def checkTypeStructureMatchesCellNoCountChecks (env : Env) (ts : TypeStructure)
    (c1 : Cell) : Option Bool :=
  (checkTypeStructureMatchesCellImplNoCountChecks env false ts c1 Diag.empty).map Prod.fst

/-! ## Resolution and verification -/

/-- The function `resolveAndVerifyTypeStructure(ts, declaringCls, calledCls)`.
The resolver `TypeStructure::resolve` is outside this file and is the
parameter `resolve`; an exception of the resolver is raised again as an error,
and the resolved structure is returned only after
`errorOnIsAsExpressionInvalidTypes` has returned normally on it. -/
def resolveAndVerifyTypeStructure
    (resolve : TypeStructure → Option Class → Option Class → Except String TypeStructure)
    (ts : TypeStructure) (declaringCls calledCls : Option Class) :
    Except String TypeStructure :=
  match resolve ts calledCls declaringCls with
  | .error msg => .error msg
  | .ok resolved =>
    match errorOnIsAsExpressionInvalidTypes resolved with
    | .error msg => .error msg
    | .ok () => .ok resolved

/-! ## A fixture with a class registry -/

/-- A concrete environment with three registered classes: `Stringish`, which
declares the string capability, `Color`, an enum with the values 1 and 2, and
`Shape`, which objects of class `Shape` are instances of. -/
def registryEnv : Env where
  lookupClass := fun name =>
    if name = "Stringish" ∨ name = "Color" ∨ name = "Shape" then some ⟨name⟩ else none
  enumHasValue := fun cls v =>
    match v with
    | .int64 num => decide (cls.name = "Color" ∧ (num = 1 ∨ num = 2))
    | _ => false
  interface_supports_int := fun _ => false
  interface_supports_double := fun _ => false
  interface_supports_string := fun name => decide (name = "Stringish")
  interface_supports_vec := fun _ => false
  interface_supports_dict := fun _ => false
  interface_supports_keyset := fun _ => false
  interface_supports_array := fun _ => false
  instanceof := fun pobj cls => decide (pobj.m_cls = cls)
  tname := sampleEnv.tname
  toString := sampleEnv.toString
  cEscape := sampleEnv.cEscape

/-! ## Shape conformance in words -/

/-- The three conditions under which a record value with entries `data`
conforms to a shape with declared fields `tsFields`: (1) every declared field
whose key is absent from the value is optional; (2) for every declared field
whose key is present, the value at that key matches the field's descriptor;
(3) unknown fields are allowed, or every key of the value is a declared key. -/
def shapeConforms (env : Env) (tsFields : List (Key × TypeStructure))
    (allowsUnknownFields : Bool) (data : List (Key × Cell)) : Prop :=
  (∀ kv ∈ tsFields, kv.1 ∉ data.map Prod.fst → isOptionalShapeField kv.2 = true) ∧
  (∀ kv ∈ tsFields, ∀ c, ArrayData.findIn kv.1 data = some c →
    checkTypeStructureMatchesCell env kv.2 c = some true) ∧
  (allowsUnknownFields = true ∨ ∀ k ∈ data.map Prod.fst, k ∈ tsFields.map Prod.fst)

/-! ## Legality in words -/

/-- The message attached to each kind that is illegal in an `is`/`as`
expression: Array, Fun, TypeVar and Trait; every other kind is legal. -/
def illegalKindMessage : TypeStructure.Kind → Option String
  | .T_array => some "\"is\" and \"as\" operators cannot be used with an array"
  | .T_fun => some "\"is\" and \"as\" operators cannot be used with a function"
  | .T_typevar => some "\"is\" and \"as\" operators cannot be used with a generic type"
  | .T_trait => some "\"is\" and \"as\" operators cannot be used with a trait"
  | _ => none

mutual

/-- The nodes of a descriptor reachable through the element descriptors of
Tuple nodes and the field descriptors of Shape nodes, in depth-first
declaration order, the node itself first. -/
def reachableNodes : TypeStructure → List TypeStructure
  | .mk k n o c es fs a =>
    .mk k n o c es fs a ::
      (if k = .T_tuple then reachableNodesList es
       else if k = .T_shape then reachableNodesFields fs
       else [])

/-- The reachable nodes of a list of element descriptors, in order. -/
def reachableNodesList : List TypeStructure → List TypeStructure
  | [] => []
  | t :: rest => reachableNodes t ++ reachableNodesList rest

/-- The reachable nodes of a list of shape fields, in order. -/
def reachableNodesFields : List (Key × TypeStructure) → List TypeStructure
  | [] => []
  | (_, t) :: rest => reachableNodes t ++ reachableNodesFields rest

end

/-- The error of the first node of illegal kind in a list of nodes, a normal
return when the list has none. -/
def firstIllegalIn (nodes : List TypeStructure) : Except String Unit :=
  match nodes.findSome? (fun node => illegalKindMessage node.kind) with
  | some msg => .error msg
  | none => .ok ()

/-- The outcome that the legality check has in words: the error of the first
illegal node in depth-first declaration order, a normal return when there is
none. -/
def firstIllegalKindError (ts : TypeStructure) : Except String Unit :=
  firstIllegalIn (reachableNodes ts)

/-! ## Distinct declared keys -/

/-- Every shape node reachable in the descriptor declares pairwise distinct
field keys. -/
def shapeKeysDistinct (ts : TypeStructure) : Prop :=
  ∀ node ∈ reachableNodes ts, node.kind = .T_shape → (node.fields.map Prod.fst).Nodup

/-! ## Structural induction on type structures -/

mutual
theorem TypeStructure.induct_ts (P : TypeStructure → Prop)
    (step : ∀ k n o c es fs a, (∀ t ∈ es, P t) → (∀ kv ∈ fs, P kv.2) →
      P (TypeStructure.mk k n o c es fs a)) : ∀ t, P t
  | .mk k n o c es fs a =>
    step k n o c es fs a (TypeStructure.induct_list P step es)
      (TypeStructure.induct_fields P step fs)
theorem TypeStructure.induct_list (P : TypeStructure → Prop)
    (step : ∀ k n o c es fs a, (∀ t ∈ es, P t) → (∀ kv ∈ fs, P kv.2) →
      P (TypeStructure.mk k n o c es fs a)) : ∀ es : List TypeStructure, ∀ t ∈ es, P t
  | [], _, h => absurd h (List.not_mem_nil _)
  | e :: es, t, h => by
    rcases List.mem_cons.mp h with h1 | h1
    · subst h1
      exact TypeStructure.induct_ts P step _
    · exact TypeStructure.induct_list P step es t h1
theorem TypeStructure.induct_fields (P : TypeStructure → Prop)
    (step : ∀ k n o c es fs a, (∀ t ∈ es, P t) → (∀ kv ∈ fs, P kv.2) →
      P (TypeStructure.mk k n o c es fs a)) :
    ∀ fs : List (Key × TypeStructure), ∀ kv ∈ fs, P kv.2
  | [], _, h => absurd h (List.not_mem_nil _)
  | (k, e) :: fs, kv, h => by
    rcases List.mem_cons.mp h with h1 | h1
    · subst h1
      exact TypeStructure.induct_ts P step _
    · exact TypeStructure.induct_fields P step fs kv h1
end

theorem afterSwitch_fst (env : Env) (g : Bool) (ts : TypeStructure) (type : DataType)
    (r : Bool) (d : Diag) :
    (afterSwitch env g ts type r d).map Prod.fst = some r := by
  unfold afterSwitch
  split <;> rfl


theorem tupleIterateKV_fst_indep (env : Env) (g g' : Bool) (es : List TypeStructure)
    (hP : ∀ t ∈ es, ∀ c d d',
      (checkTypeStructureMatchesCellImpl env g t c d).map Prod.fst =
        (checkTypeStructureMatchesCellImpl env g' t c d').map Prod.fst) :
    ∀ cs k k' d d',
      (tupleIterateKV env g es cs k d).map Prod.fst =
        (tupleIterateKV env g' es cs k' d').map Prod.fst := by
  induction es with
  | nil => intro cs k k' d d'; cases cs <;> simp [tupleIterateKV]
  | cons t ts ih =>
    intro cs k k' d d'
    cases cs with
    | nil => simp [tupleIterateKV]
    | cons c cs =>
      have h := hP t (List.mem_cons_self _ _) c d d'
      have ih' := ih (fun t ht => hP t (List.mem_cons_of_mem _ ht)) cs (k + 1) (k' + 1)
      simp only [tupleIterateKV]
      rcases h1 : checkTypeStructureMatchesCellImpl env g t c d with _ | ⟨b, x⟩ <;>
        rcases h2 : checkTypeStructureMatchesCellImpl env g' t c d' with _ | ⟨b', x'⟩ <;>
        rw [h1, h2] at h <;> simp at h
      subst h
      cases b
      · rfl
      · exact ih' x x'

theorem shapeIterateKV_fst_indep (env : Env) (g g' : Bool) (fields : ArrayData Cell)
    (fs : List (Key × TypeStructure))
    (hP : ∀ kv ∈ fs, ∀ c d d',
      (checkTypeStructureMatchesCellImpl env g kv.2 c d).map Prod.fst =
        (checkTypeStructureMatchesCellImpl env g' kv.2 c d').map Prod.fst) :
    ∀ n d d',
      (shapeIterateKV env g fields fs n d).map (fun r => (r.1, r.2.1)) =
        (shapeIterateKV env g' fields fs n d').map (fun r => (r.1, r.2.1)) := by
  induction fs with
  | nil => intro n d d'; simp [shapeIterateKV]
  | cons kv rest ih =>
    intro n d d'
    obtain ⟨k, t⟩ := kv
    have ih' := ih (fun kv hkv => hP kv (List.mem_cons_of_mem _ hkv))
    simp only [shapeIterateKV]
    cases hf : fields.find? k with
    | none =>
      simp only []
      split
      · exact ih' n d d'
      · rfl
    | some c =>
      have h := hP (k, t) (List.mem_cons_self _ _) c d d'
      simp only [] at h ⊢
      rcases h1 : checkTypeStructureMatchesCellImpl env g t c d with _ | ⟨b, x⟩ <;>
        rcases h2 : checkTypeStructureMatchesCellImpl env g' t c d' with _ | ⟨b', x'⟩ <;>
        rw [h1, h2] at h <;> simp at h
      subst h
      cases b
      · rfl
      · exact ih' (n + 1) x x'

theorem impl_fst_indep (env : Env) (g g' : Bool) :
    ∀ ts c1 d d',
      (checkTypeStructureMatchesCellImpl env g ts c1 d).map Prod.fst =
        (checkTypeStructureMatchesCellImpl env g' ts c1 d').map Prod.fst := by
  refine TypeStructure.induct_ts _ ?_
  intro k n o c es fs a ihE ihF c1 d d'
  unfold checkTypeStructureMatchesCellImpl
  simp only []
  by_cases hn : n = some true ∧ isNullType c1.m_type = true
  · simp only [hn, and_self, if_true, Option.map]
  · simp only [hn, if_false]
    cases k <;> simp only [afterSwitch_fst] <;> try rfl
    · cases hp : c1.parr with
      | none => simp only [afterSwitch_fst, ite_self]
      | some elems =>
        dsimp only
        split_ifs <;> try simp only [afterSwitch_fst]
        exact tupleIterateKV_fst_indep env g g' es ihE _ 0 0 d d'
    · cases hp : c1.parr with
      | none => simp only [afterSwitch_fst, ite_self]
      | some fields =>
        dsimp only
        split_ifs <;> try simp only [afterSwitch_fst]
        have h := shapeIterateKV_fst_indep env g g' fields fs ihF 0 d d'
        rcases h1 : shapeIterateKV env g fields fs 0 d with _ | ⟨b, m, x⟩ <;>
          rcases h2 : shapeIterateKV env g' fields fs 0 d' with _ | ⟨b', m', x'⟩ <;>
          rw [h1, h2] at h <;> simp at h
        obtain ⟨hb, hm⟩ := h
        subst hb hm
        cases b
        · simp only [afterSwitch_fst]
        · rfl


theorem afterSwitch_true (env : Env) (g : Bool) (ts : TypeStructure) (type : DataType)
    (r : Bool) (d d' : Diag) (h : afterSwitch env g ts type r d = some (true, d')) :
    r = true ∧ d' = d := by
  unfold afterSwitch at h
  cases r <;> cases g <;> simp at h <;> simp [h]

theorem tupleIterateKV_true_frame (env : Env) (g : Bool) (es : List TypeStructure)
    (hP : ∀ t ∈ es, ∀ c d d',
      checkTypeStructureMatchesCellImpl env g t c d = some (true, d') → d' = d) :
    ∀ cs k d d', tupleIterateKV env g es cs k d = some (true, d') → d' = d := by
  induction es with
  | nil =>
    intro cs k d d' h
    cases cs <;> simp [tupleIterateKV] at h
    exact h.symm
  | cons t ts ih =>
    intro cs k d d' h
    cases cs with
    | nil =>
      simp [tupleIterateKV] at h
      exact h.symm
    | cons c cs =>
      simp only [tupleIterateKV] at h
      rcases h1 : checkTypeStructureMatchesCellImpl env g t c d with _ | ⟨b, x⟩
      · rw [h1] at h; simp at h
      · rw [h1] at h
        cases b
        · simp at h
        · have hx := hP t (List.mem_cons_self _ _) c d x h1
          subst hx
          exact ih (fun t ht => hP t (List.mem_cons_of_mem _ ht)) cs (k + 1) x d' h

theorem shapeIterateKV_true_frame (env : Env) (g : Bool) (fields : ArrayData Cell)
    (fs : List (Key × TypeStructure))
    (hP : ∀ kv ∈ fs, ∀ c d d',
      checkTypeStructureMatchesCellImpl env g kv.2 c d = some (true, d') → d' = d) :
    ∀ n d m d', shapeIterateKV env g fields fs n d = some (true, m, d') → d' = d := by
  induction fs with
  | nil =>
    intro n d m d' h
    simp [shapeIterateKV] at h
    exact h.2.symm
  | cons kv rest ih =>
    intro n d m d' h
    obtain ⟨k, t⟩ := kv
    have ih' := ih (fun kv hkv => hP kv (List.mem_cons_of_mem _ hkv))
    simp only [shapeIterateKV] at h
    cases hf : fields.find? k with
    | none =>
      rw [hf] at h
      dsimp only at h
      split at h
      · exact ih' n d m d' h
      · simp at h
    | some c =>
      rw [hf] at h
      dsimp only at h
      rcases h1 : checkTypeStructureMatchesCellImpl env g t c d with _ | ⟨b, x⟩
      · rw [h1] at h; simp at h
      · rw [h1] at h
        cases b
        · simp at h
        · have hx := hP (k, t) (List.mem_cons_self _ _) c d x h1
          subst hx
          exact ih' (n + 1) x m d' h

theorem impl_true_frame (env : Env) (g : Bool) :
    ∀ ts c1 d d', checkTypeStructureMatchesCellImpl env g ts c1 d = some (true, d') → d' = d := by
  refine TypeStructure.induct_ts _ ?_
  intro k n o c es fs a ihE ihF c1 d d' h
  unfold checkTypeStructureMatchesCellImpl at h
  dsimp only at h
  by_cases hn : n = some true ∧ isNullType c1.m_type = true
  · simp only [hn, and_self, if_true, Option.some.injEq, Prod.mk.injEq, true_and] at h
    exact h.symm
  · simp only [hn, if_false] at h
    cases k <;> dsimp only at h <;>
      first
        | exact (afterSwitch_true _ _ _ _ _ _ _ h).2
        | (simp at h; done)
        | skip
    · simp at h; exact h.symm
    · cases hp : c1.parr with
      | none =>
        rw [hp] at h
        simp only [ite_self] at h
        exact (afterSwitch_true _ _ _ _ _ _ _ h).2
      | some elems =>
        rw [hp] at h
        dsimp only at h
        split_ifs at h <;>
          first
            | exact (afterSwitch_true _ _ _ _ _ _ _ h).2
            | (have h' := (afterSwitch_true _ _ _ _ _ _ _ h).1; simp at h')
            | skip
        exact tupleIterateKV_true_frame env g es ihE _ 0 d d' h
    · cases hp : c1.parr with
      | none =>
        rw [hp] at h
        simp only [ite_self] at h
        exact (afterSwitch_true _ _ _ _ _ _ _ h).2
      | some fields =>
        rw [hp] at h
        dsimp only at h
        split_ifs at h <;>
          first
            | exact (afterSwitch_true _ _ _ _ _ _ _ h).2
            | (have h' := (afterSwitch_true _ _ _ _ _ _ _ h).1; simp at h')
            | skip
        rcases h1 : shapeIterateKV env g fields fs 0 d with _ | ⟨b, m, x⟩
        · rw [h1] at h; simp at h
        · rw [h1] at h
          cases b
          · exact absurd (afterSwitch_true _ _ _ _ _ _ _ h).1 (by simp)
          · have hx := shapeIterateKV_true_frame env g fields fs ihF 0 d m x h1
            simp at h
            rw [← h.2]
            exact hx

/-! ## Agreement of the two entry points -/

theorem impl_true_iff (env : Env) (g : Bool) (ts : TypeStructure) (c1 : Cell) (d : Diag) :
    checkTypeStructureMatchesCellImpl env g ts c1 d = some (true, d) ↔
      checkTypeStructureMatchesCell env ts c1 = some true := by
  unfold checkTypeStructureMatchesCell
  rw [← impl_fst_indep env g false ts c1 d Diag.empty]
  constructor
  · intro h
    rw [h]
    rfl
  · intro h
    rcases h1 : checkTypeStructureMatchesCellImpl env g ts c1 d with _ | ⟨b, x⟩
    · rw [h1] at h; simp at h
    · rw [h1] at h
      simp at h
      subst h
      rw [impl_true_frame env g ts c1 d x h1]

/-- C1: on every descriptor and value, and whatever the three strings hold on
entry, the diagnostic-producing entry point returns the boolean that the
non-diagnostic entry point returns, and it aborts exactly when that one does. -/
theorem checkTypeStructureMatchesCell_entry_points_agree (env : Env) (ts : TypeStructure)
    (c1 : Cell) (givenType expectedType errorKey : String) :
    (checkTypeStructureMatchesCellErr env ts c1 givenType expectedType errorKey).map Prod.fst =
      checkTypeStructureMatchesCell env ts c1 :=
  impl_fst_indep env true false ts c1 ⟨givenType, expectedType, errorKey⟩ Diag.empty

/-- C8: when the diagnostic-producing entry point returns true, the three
strings come back exactly as they were passed in. -/
theorem checkTypeStructureMatchesCellErr_true_writes_nothing (env : Env)
    (ts : TypeStructure) (c1 : Cell) (givenType expectedType errorKey : String) (d : Diag)
    (h : checkTypeStructureMatchesCellErr env ts c1 givenType expectedType errorKey =
      some (true, d)) :
    d = ⟨givenType, expectedType, errorKey⟩ :=
  impl_true_frame env true ts c1 ⟨givenType, expectedType, errorKey⟩ d h

/-- Witness for C8: a tuple of an Int and a shape, matched by a vec, with the three
strings set on entry. -/
theorem checkTypeStructureMatchesCellErr_true_writes_nothing_witness :
    checkTypeStructureMatchesCellErr sampleEnv
        (tsTuple [tsOfKind .T_int, tsShape [(.str "a", tsOfKind .T_string)] false])
        (vecOf [.int64 1, dictOf [(.str "a", .string false "x")]]) "g" "e" "k" =
      some (true, ⟨"g", "e", "k"⟩) ∧
    (⟨"g", "e", "k"⟩ : Diag) = ⟨"g", "e", "k"⟩ :=
  ⟨by decide,
    checkTypeStructureMatchesCellErr_true_writes_nothing sampleEnv
      (tsTuple [tsOfKind .T_int, tsShape [(.str "a", tsOfKind .T_string)] false])
      (vecOf [.int64 1, dictOf [(.str "a", .string false "x")]]) "g" "e" "k" _ (by decide)⟩

/-! ## Nullable descriptors and unsupported kinds -/

theorem impl_nullable_null (env : Env) (g : Bool) (ts : TypeStructure) (d : Diag)
    (h : ts.nullable = some true) :
    checkTypeStructureMatchesCellImpl env g ts Cell.null d = some (true, d) := by
  obtain ⟨k, n, o, c, es, fs, a⟩ := ts
  simp only [TypeStructure.nullable] at h
  subst h
  unfold checkTypeStructureMatchesCellImpl
  simp [Cell.m_type, isNullType]

theorem impl_unsupported_kind (env : Env) (g : Bool) (ts : TypeStructure) (c1 : Cell)
    (d : Diag)
    (hk : ts.kind = .T_fun ∨ ts.kind = .T_typevar ∨ ts.kind = .T_trait)
    (hn : ¬(ts.nullable = some true ∧ isNullType c1.m_type = true)) :
    checkTypeStructureMatchesCellImpl env g ts c1 d = none := by
  obtain ⟨k, n, o, c, es, fs, a⟩ := ts
  simp only [TypeStructure.nullable, TypeStructure.kind] at hk hn
  unfold checkTypeStructureMatchesCellImpl
  dsimp only
  rw [if_neg hn]
  rcases hk with hk | hk | hk <;> subst hk <;> rfl

/-- C9: a descriptor of any kind whose `nullable` flag is set matches the Null
value: both entry points return true (they do not abort), and the
diagnostic-producing one leaves the strings as they were. -/
theorem nullable_matches_null (env : Env) (ts : TypeStructure)
    (h : ts.nullable = some true) :
    checkTypeStructureMatchesCell env ts Cell.null = some true ∧
      ∀ givenType expectedType errorKey,
        checkTypeStructureMatchesCellErr env ts Cell.null givenType expectedType errorKey =
          some (true, ⟨givenType, expectedType, errorKey⟩) := by
  constructor
  · unfold checkTypeStructureMatchesCell
    rw [impl_nullable_null env false ts _ h]
    rfl
  · intro gt et ek
    exact impl_nullable_null env true ts _ h

/-- Witness for C9: a nullable descriptor of kind Trait. -/
theorem nullable_matches_null_witness :
    (TypeStructure.mk .T_trait (some true) none "" [] [] none).nullable = some true ∧
    (checkTypeStructureMatchesCell sampleEnv
        (TypeStructure.mk .T_trait (some true) none "" [] [] none) Cell.null = some true ∧
      ∀ givenType expectedType errorKey,
        checkTypeStructureMatchesCellErr sampleEnv
            (TypeStructure.mk .T_trait (some true) none "" [] [] none) Cell.null
            givenType expectedType errorKey =
          some (true, ⟨givenType, expectedType, errorKey⟩)) :=
  ⟨rfl, nullable_matches_null sampleEnv _ rfl⟩

/-- C10, as stated, fails: nullable descriptors of kind Fun, TypeVar and Trait
return true on the Null value instead of aborting. -/
theorem unsupported_kind_nullable_null_returns :
    checkTypeStructureMatchesCell sampleEnv
        (TypeStructure.mk .T_fun (some true) none "" [] [] none) Cell.null = some true ∧
    checkTypeStructureMatchesCell sampleEnv
        (TypeStructure.mk .T_typevar (some true) none "" [] [] none) Cell.null = some true ∧
    checkTypeStructureMatchesCell sampleEnv
        (TypeStructure.mk .T_trait (some true) none "" [] [] none) Cell.null = some true := by
  decide

/-- C10, amended: for a descriptor of kind Fun, TypeVar or Trait and a value
that is not caught by the nullable test (the descriptor is not nullable, or the
value is not of null type), both entry points abort. -/
theorem unsupported_kind_aborts (env : Env) (ts : TypeStructure) (c1 : Cell)
    (hk : ts.kind = .T_fun ∨ ts.kind = .T_typevar ∨ ts.kind = .T_trait)
    (hn : ¬(ts.nullable = some true ∧ isNullType c1.m_type = true)) :
    checkTypeStructureMatchesCell env ts c1 = none ∧
      ∀ givenType expectedType errorKey,
        checkTypeStructureMatchesCellErr env ts c1 givenType expectedType errorKey = none := by
  constructor
  · unfold checkTypeStructureMatchesCell
    rw [impl_unsupported_kind env false ts c1 _ hk hn]
    rfl
  · intro gt et ek
    exact impl_unsupported_kind env true ts c1 _ hk hn

/-- Witness for the amended C10: a nullable TypeVar descriptor on an integer. -/
theorem unsupported_kind_aborts_witness :
    ((TypeStructure.mk .T_typevar (some true) none "" [] [] none).kind = .T_fun ∨
      (TypeStructure.mk .T_typevar (some true) none "" [] [] none).kind = .T_typevar ∨
      (TypeStructure.mk .T_typevar (some true) none "" [] [] none).kind = .T_trait) ∧
    ¬((TypeStructure.mk .T_typevar (some true) none "" [] [] none).nullable = some true ∧
      isNullType (Cell.int64 3).m_type = true) ∧
    (checkTypeStructureMatchesCell sampleEnv
        (TypeStructure.mk .T_typevar (some true) none "" [] [] none) (Cell.int64 3) = none ∧
      ∀ givenType expectedType errorKey,
        checkTypeStructureMatchesCellErr sampleEnv
            (TypeStructure.mk .T_typevar (some true) none "" [] [] none) (Cell.int64 3)
            givenType expectedType errorKey = none) :=
  ⟨by decide, by decide, unsupported_kind_aborts sampleEnv _ _ (by decide) (by decide)⟩

/-! ## Shapes on concrete inputs -/

/-- C2, the failing input: on the shape with the single optional field `a: Int`
that disallows unknown fields and the dict with the single key `c`, the closing
count test returns false directly, and the diagnostic-producing entry point
hands back all three strings empty. -/
theorem closing_count_failure_leaves_strings_empty (env : Env) :
    checkTypeStructureMatchesCellErr env (tsShape [(.str "a", tsOptional .T_int)] false)
        (dictOf [(.str "c", .int64 1)]) "" "" "" =
      some (false, ⟨"", "", ""⟩) :=
  rfl

/-- C3: the shape with a required `a: Int` and an optional `b: String` matches
the dicts with keys `a` and with keys `a`, `b`; it does not match the dict with
key `b` alone; and the dict with keys `a`, `c` is rejected when unknown fields
are disallowed and accepted when they are allowed. -/
theorem shape_required_optional_examples (env : Env) :
    checkTypeStructureMatchesCell env
        (tsShape [(.str "a", tsOfKind .T_int), (.str "b", tsOptional .T_string)] false)
        (dictOf [(.str "a", .int64 5)]) = some true ∧
    checkTypeStructureMatchesCell env
        (tsShape [(.str "a", tsOfKind .T_int), (.str "b", tsOptional .T_string)] false)
        (dictOf [(.str "a", .int64 5), (.str "b", .string false "x")]) = some true ∧
    checkTypeStructureMatchesCell env
        (tsShape [(.str "a", tsOfKind .T_int), (.str "b", tsOptional .T_string)] false)
        (dictOf [(.str "b", .string false "x")]) = some false ∧
    checkTypeStructureMatchesCell env
        (tsShape [(.str "a", tsOfKind .T_int), (.str "b", tsOptional .T_string)] false)
        (dictOf [(.str "a", .int64 5), (.str "c", .boolean true)]) = some false ∧
    checkTypeStructureMatchesCell env
        (tsShape [(.str "a", tsOfKind .T_int), (.str "b", tsOptional .T_string)] true)
        (dictOf [(.str "a", .int64 5), (.str "c", .boolean true)]) = some true :=
  ⟨rfl, rfl, rfl, rfl, rfl⟩

/-! ## Counting keys -/

theorem findIn_eq_none_iff {α : Type} (k : Key) (data : List (Key × α)) :
    ArrayData.findIn k data = none ↔ k ∉ data.map Prod.fst := by
  induction data with
  | nil => simp [ArrayData.findIn]
  | cons kv rest ih =>
    obtain ⟨k', v⟩ := kv
    simp only [ArrayData.findIn, List.map_cons, List.mem_cons, not_or]
    by_cases h : k = k'
    · simp [h]
    · simp [h, ih]

theorem findIn_isSome {α : Type} (k : Key) (data : List (Key × α)) :
    (ArrayData.findIn k data).isSome = decide (k ∈ data.map Prod.fst) := by
  by_cases h : k ∈ data.map Prod.fst
  · have h1 : ArrayData.findIn k data ≠ none := fun hn => (findIn_eq_none_iff k data).mp hn h
    rw [decide_eq_true h]
    exact Option.isSome_iff_ne_none.mpr h1
  · rw [decide_eq_false h, (findIn_eq_none_iff k data).mpr h]
    rfl

theorem foldl_required (fs : List (Key × TypeStructure)) (n : Nat) :
    fs.foldl (fun n kv => n + (if isOptionalShapeField kv.2 then 0 else 1)) n =
      n + (fs.filter (fun kv => !isOptionalShapeField kv.2)).length := by
  induction fs generalizing n with
  | nil => simp
  | cons kv rest ih =>
    simp only [List.foldl_cons, ih, List.filter_cons]
    cases isOptionalShapeField kv.2 <;> first | (simp; done) | (simp; omega)

theorem numRequiredFields_eq (fs : List (Key × TypeStructure)) :
    numRequiredFields fs = (fs.filter (fun kv => !isOptionalShapeField kv.2)).length := by
  unfold numRequiredFields
  rw [foldl_required]
  simp

/-- The number of declared fields whose key exists in the value. -/
theorem presentCount_eq (fs : List (Key × TypeStructure)) (data : List (Key × Cell)) :
    (fs.filter (fun kv => (ArrayData.findIn kv.1 data).isSome)).length =
      ((fs.map Prod.fst).filter (fun k => decide (k ∈ data.map Prod.fst))).length := by
  rw [List.filter_map, List.length_map]
  congr 1
  apply List.filter_congr
  intro kv _
  simp [findIn_isSome]

theorem presentCount_le (fs : List (Key × TypeStructure)) (data : List (Key × Cell))
    (hD : (fs.map Prod.fst).Nodup) :
    (fs.filter (fun kv => (ArrayData.findIn kv.1 data).isSome)).length ≤ data.length := by
  rw [presentCount_eq]
  have hsub : (fs.map Prod.fst).filter (fun k => decide (k ∈ data.map Prod.fst)) ⊆
      data.map Prod.fst := by
    intro k hk
    simpa using (List.mem_filter.mp hk).2
  have := (List.subperm_of_subset (hD.filter _) hsub).length_le
  simpa using this

theorem presentCount_eq_length_iff (fs : List (Key × TypeStructure))
    (data : List (Key × Cell)) (hD : (fs.map Prod.fst).Nodup)
    (hV : (data.map Prod.fst).Nodup) :
    data.length = (fs.filter (fun kv => (ArrayData.findIn kv.1 data).isSome)).length ↔
      ∀ k ∈ data.map Prod.fst, k ∈ fs.map Prod.fst := by
  rw [presentCount_eq]
  have hsub : (fs.map Prod.fst).filter (fun k => decide (k ∈ data.map Prod.fst)) ⊆
      data.map Prod.fst := by
    intro k hk
    simpa using (List.mem_filter.mp hk).2
  have hsp := List.subperm_of_subset (hD.filter _) hsub
  constructor
  · intro hlen k hk
    have hperm := hsp.perm_of_length_le (by rw [List.length_map]; omega)
    have := hperm.symm.subset hk
    exact (List.mem_filter.mp this).1
  · intro hall
    have hsub' : data.map Prod.fst ⊆
        (fs.map Prod.fst).filter (fun k => decide (k ∈ data.map Prod.fst)) := by
      intro k hk
      exact List.mem_filter.mpr ⟨hall k hk, by simpa using hk⟩
    have h1 := (List.subperm_of_subset hV hsub').length_le
    have h2 := hsp.length_le
    rw [List.length_map] at h1 h2
    omega

theorem numRequiredFields_le_presentCount (fs : List (Key × TypeStructure))
    (data : List (Key × Cell))
    (h : ∀ kv ∈ fs, kv.1 ∉ data.map Prod.fst → isOptionalShapeField kv.2 = true) :
    numRequiredFields fs ≤
      (fs.filter (fun kv => (ArrayData.findIn kv.1 data).isSome)).length := by
  rw [numRequiredFields_eq, ← List.countP_eq_length_filter, ← List.countP_eq_length_filter]
  apply List.countP_mono_left
  intro kv hkv hreq
  rw [findIn_isSome]
  by_contra hc
  have := h kv hkv (by simpa using hc)
  simp [this] at hreq

theorem length_le_of_keys_subset (fs : List (Key × TypeStructure))
    (data : List (Key × Cell)) (hV : (data.map Prod.fst).Nodup)
    (h : ∀ k ∈ data.map Prod.fst, k ∈ fs.map Prod.fst) : data.length ≤ fs.length := by
  have := (List.subperm_of_subset hV h).length_le
  simpa using this

/-! ## The shape loop -/

theorem isNullType_arr (family : ArrayType) (persistent : Bool) (a : ArrayData Cell) :
    isNullType (Cell.arr family persistent a).m_type = false := by
  cases family <;> cases persistent <;> rfl

theorem isArrayLikeType_arr (family : ArrayType) (persistent : Bool) (a : ArrayData Cell) :
    isArrayLikeType (Cell.arr family persistent a).m_type = true := by
  cases family <;> cases persistent <;> rfl

/-- Declared fields that are absent and optional, or present and matching, are
passed over by the loop: the strings are untouched and the counter grows by the
number of those that are present. -/
theorem shapeIterateKV_append_ok (env : Env) (g : Bool) (fields : ArrayData Cell)
    (pre rest : List (Key × TypeStructure))
    (hpre : ∀ kv ∈ pre,
      (kv.1 ∉ fields.data.map Prod.fst → isOptionalShapeField kv.2 = true) ∧
      (∀ c, ArrayData.findIn kv.1 fields.data = some c →
        checkTypeStructureMatchesCell env kv.2 c = some true)) :
    ∀ n d, shapeIterateKV env g fields (pre ++ rest) n d =
      shapeIterateKV env g fields rest
        (n + (pre.filter (fun kv => (ArrayData.findIn kv.1 fields.data).isSome)).length) d := by
  induction pre with
  | nil => intro n d; simp
  | cons kv pre ih =>
    intro n d
    obtain ⟨k, t⟩ := kv
    have ih' := ih (fun kv hkv => hpre kv (List.mem_cons_of_mem _ hkv))
    have hkv := hpre (k, t) (List.mem_cons_self _ _)
    simp only [List.cons_append, shapeIterateKV, ArrayData.find?, List.filter_cons]
    cases hf : ArrayData.findIn k fields.data with
    | none =>
      have hopt := hkv.1 ((findIn_eq_none_iff k fields.data).mp hf)
      simp only [] at hopt
      simp only [hopt, if_true, Option.isSome_none, Bool.false_eq_true, if_false]
      exact ih' n d
    | some c =>
      have hm := (impl_true_iff env g t c d).mpr (hkv.2 c hf)
      simp only [hm, Option.isSome_some, if_true, List.length_cons]
      refine (ih' (n + 1) d).trans ?_
      congr 1
      omega

/-- When the loop ends with `fieldsDidMatch`, every declared field was absent
and optional, or present and matching. -/
theorem shapeIterateKV_true_fields (env : Env) (g : Bool) (fields : ArrayData Cell)
    (fs : List (Key × TypeStructure)) :
    ∀ n d m d', shapeIterateKV env g fields fs n d = some (true, m, d') →
      ∀ kv ∈ fs,
        (kv.1 ∉ fields.data.map Prod.fst → isOptionalShapeField kv.2 = true) ∧
        (∀ c, ArrayData.findIn kv.1 fields.data = some c →
          checkTypeStructureMatchesCell env kv.2 c = some true) := by
  induction fs with
  | nil => intro n d m d' _ kv hkv; exact absurd hkv (List.not_mem_nil _)
  | cons kv0 rest ih =>
    intro n d m d' h kv hkv
    obtain ⟨k, t⟩ := kv0
    simp only [shapeIterateKV, ArrayData.find?] at h
    cases hf : ArrayData.findIn k fields.data with
    | none =>
      rw [hf] at h
      dsimp only at h
      split at h
      · rename_i hopt
        rcases List.mem_cons.mp hkv with h1 | h1
        · subst h1
          exact ⟨fun _ => hopt, fun c hc => by rw [hf] at hc; simp at hc⟩
        · exact ih n d m d' h kv h1
      · simp at h
    | some c =>
      rw [hf] at h
      dsimp only at h
      rcases h1 : checkTypeStructureMatchesCellImpl env g t c d with _ | ⟨b, x⟩
      · rw [h1] at h; simp at h
      · rw [h1] at h
        cases b
        · simp at h
        · have hx := impl_true_frame env g t c d x h1
          subst hx
          rcases List.mem_cons.mp hkv with h2 | h2
          · subst h2
            refine ⟨fun habs => ?_, fun c' hc' => ?_⟩
            · exact absurd ((findIn_eq_none_iff k fields.data).mpr habs) (by rw [hf]; simp)
            · rw [hf] at hc'
              simp at hc'
              subst hc'
              exact (impl_true_iff env g t c x).mp h1
          · exact ih (n + 1) x m d' h kv h2

/-- The shape case on a record-layout array, after the tests that such a value
passes (not null, array-like, `isDictOrDArray()`). -/
theorem impl_shape_record (env : Env) (g : Bool) (n o : Option Bool) (c : String)
    (es : List TypeStructure) (fs : List (Key × TypeStructure)) (a : Option Bool)
    (family : ArrayType) (persistent : Bool) (data : List (Key × Cell)) (d : Diag) :
    checkTypeStructureMatchesCellImpl env g (.mk .T_shape n o c es fs a)
        (.arr family persistent ⟨.dictOrDArray, data⟩) d =
      if data.length < numRequiredFields fs then
        afterSwitch env g (.mk .T_shape n o c es fs a)
          (Cell.arr family persistent ⟨.dictOrDArray, data⟩).m_type false
          (errOnLen env g (Cell.arr family persistent ⟨.dictOrDArray, data⟩).m_type
            data.length d)
      else if (!shapeAllowsUnknownFields (.mk .T_shape n o c es fs a) &&
          decide (data.length > fs.length)) = true then
        afterSwitch env g (.mk .T_shape n o c es fs a)
          (Cell.arr family persistent ⟨.dictOrDArray, data⟩).m_type false
          (errOnLen env g (Cell.arr family persistent ⟨.dictOrDArray, data⟩).m_type
            data.length d)
      else
        match shapeIterateKV env g ⟨.dictOrDArray, data⟩ fs 0 d with
        | none => none
        | some (false, _, d') =>
          afterSwitch env g (.mk .T_shape n o c es fs a)
            (Cell.arr family persistent ⟨.dictOrDArray, data⟩).m_type false d'
        | some (true, numExpectedFields, d') =>
          some (shapeAllowsUnknownFields (.mk .T_shape n o c es fs a) ||
            data.length == numExpectedFields, d') := by
  unfold checkTypeStructureMatchesCellImpl
  simp only [isNullType_arr, isArrayLikeType_arr, Cell.parr, ArrayData.isDictOrDArray,
    ArrayData.size, Bool.false_eq_true, and_false, if_false, Bool.not_true]

/-! ## Shape conformance -/

/-- C4: for a shape descriptor with pairwise distinct declared keys and a
record-layout value with pairwise distinct keys, the matcher returns true
exactly when every absent declared field is optional, every present declared
field matches its descriptor, and unknown fields are allowed or every key of the
value is declared; and whenever the field loop succeeds, its closing test
`numFields == numExpectedFields` holds exactly when the value has no undeclared
key. -/
theorem shape_matches_iff_conforms (env : Env) (nullable osf : Option Bool)
    (classname : String) (tsElems : List TypeStructure)
    (tsFields : List (Key × TypeStructure)) (auf : Option Bool)
    (family : ArrayType) (persistent : Bool) (data : List (Key × Cell))
    (hS : (tsFields.map Prod.fst).Nodup) (hv : (data.map Prod.fst).Nodup) :
    (checkTypeStructureMatchesCell env
        (.mk .T_shape nullable osf classname tsElems tsFields auf)
        (.arr family persistent ⟨.dictOrDArray, data⟩) = some true ↔
      shapeConforms env tsFields
        (shapeAllowsUnknownFields (.mk .T_shape nullable osf classname tsElems tsFields auf))
        data) ∧
    (∀ g d numExpectedFields d',
      shapeIterateKV env g ⟨.dictOrDArray, data⟩ tsFields 0 d =
          some (true, numExpectedFields, d') →
        ((ArrayData.size (⟨.dictOrDArray, data⟩ : ArrayData Cell) == numExpectedFields) = true ↔
          ∀ k ∈ data.map Prod.fst, k ∈ tsFields.map Prod.fst)) := by
  have hloop : ∀ g d m d',
      shapeIterateKV env g ⟨.dictOrDArray, data⟩ tsFields 0 d = some (true, m, d') →
        m = (tsFields.filter (fun kv => (ArrayData.findIn kv.1 data).isSome)).length := by
    intro g d m d' h
    have hok := shapeIterateKV_true_fields env g ⟨.dictOrDArray, data⟩ tsFields 0 d m d' h
    have := shapeIterateKV_append_ok env g ⟨.dictOrDArray, data⟩ tsFields [] hok 0 d
    rw [List.append_nil, h] at this
    simp [shapeIterateKV] at this
    exact this.1
  constructor
  · rw [← impl_true_iff env false _ _ Diag.empty, impl_shape_record]
    unfold shapeConforms
    constructor
    · intro h
      split_ifs at h with h1 h2
      · exact absurd (afterSwitch_true _ _ _ _ _ _ _ h).1 (by simp)
      · exact absurd (afterSwitch_true _ _ _ _ _ _ _ h).1 (by simp)
      · rcases hl : shapeIterateKV env false ⟨.dictOrDArray, data⟩ tsFields 0 Diag.empty
          with _ | ⟨b, m, x⟩
        · rw [hl] at h; simp at h
        · rw [hl] at h
          cases b
          · exact absurd (afterSwitch_true _ _ _ _ _ _ _ h).1 (by simp)
          · have hok := shapeIterateKV_true_fields env false _ tsFields 0 _ m x hl
            have hm := hloop false _ m x hl
            simp only [Option.some.injEq, Prod.mk.injEq, Bool.or_eq_true, beq_iff_eq] at h
            refine ⟨fun kv hkv => (hok kv hkv).1, fun kv hkv => (hok kv hkv).2, ?_⟩
            rcases h.1 with ha | hlen
            · exact Or.inl ha
            · right
              rw [hm] at hlen
              exact (presentCount_eq_length_iff tsFields data hS hv).mp hlen
    · rintro ⟨h1, h2, h3⟩
      have hok : ∀ kv ∈ tsFields,
          (kv.1 ∉ (⟨.dictOrDArray, data⟩ : ArrayData Cell).data.map Prod.fst →
            isOptionalShapeField kv.2 = true) ∧
          (∀ c, ArrayData.findIn kv.1 (⟨.dictOrDArray, data⟩ : ArrayData Cell).data = some c →
            checkTypeStructureMatchesCell env kv.2 c = some true) :=
        fun kv hkv => ⟨h1 kv hkv, h2 kv hkv⟩
      have hrun := shapeIterateKV_append_ok env false ⟨.dictOrDArray, data⟩ tsFields [] hok 0
        Diag.empty
      rw [List.append_nil] at hrun
      simp only [shapeIterateKV, Nat.zero_add] at hrun
      have hreq := numRequiredFields_le_presentCount tsFields data h1
      have hle := presentCount_le tsFields data hS
      rw [if_neg (by omega)]
      have hsecond : ¬((!shapeAllowsUnknownFields
          (.mk .T_shape nullable osf classname tsElems tsFields auf) &&
          decide (data.length > tsFields.length)) = true) := by
        rcases h3 with ha | hsub
        · simp [ha]
        · have := length_le_of_keys_subset tsFields data hv hsub
          simp only [Bool.and_eq_true, decide_eq_true_eq, not_and]
          intro _
          omega
      rw [if_neg hsecond, hrun]
      simp only [Option.some.injEq, Prod.mk.injEq, and_true, Bool.or_eq_true, beq_iff_eq]
      rcases h3 with ha | hsub
      · exact Or.inl ha
      · exact Or.inr ((presentCount_eq_length_iff tsFields data hS hv).mpr hsub)
  · intro g d m d' h
    rw [hloop g d m d' h]
    simp only [ArrayData.size, beq_iff_eq]
    exact presentCount_eq_length_iff tsFields data hS hv

/-- Witness for C4: the shape with required `a` and optional `b`, on a dict with
keys `a` and `c`. -/
theorem shape_matches_iff_conforms_witness :
    ([(Key.str "a", tsOfKind .T_int), (Key.str "b", tsOptional .T_string)].map Prod.fst).Nodup ∧
    ([(Key.str "a", Cell.int64 5), (Key.str "c", Cell.boolean true)].map Prod.fst).Nodup ∧
    ((checkTypeStructureMatchesCell sampleEnv
        (.mk .T_shape none none "" []
          [(Key.str "a", tsOfKind .T_int), (Key.str "b", tsOptional .T_string)] (some false))
        (.arr .dict false
          ⟨.dictOrDArray, [(Key.str "a", Cell.int64 5), (Key.str "c", Cell.boolean true)]⟩) =
          some true ↔
      shapeConforms sampleEnv
        [(Key.str "a", tsOfKind .T_int), (Key.str "b", tsOptional .T_string)]
        (shapeAllowsUnknownFields (.mk .T_shape none none "" []
          [(Key.str "a", tsOfKind .T_int), (Key.str "b", tsOptional .T_string)] (some false)))
        [(Key.str "a", Cell.int64 5), (Key.str "c", Cell.boolean true)]) ∧
    (∀ g d numExpectedFields d',
      shapeIterateKV sampleEnv g
          ⟨.dictOrDArray, [(Key.str "a", Cell.int64 5), (Key.str "c", Cell.boolean true)]⟩
          [(Key.str "a", tsOfKind .T_int), (Key.str "b", tsOptional .T_string)] 0 d =
          some (true, numExpectedFields, d') →
        ((ArrayData.size (⟨.dictOrDArray,
            [(Key.str "a", Cell.int64 5), (Key.str "c", Cell.boolean true)]⟩ : ArrayData Cell) ==
            numExpectedFields) = true ↔
          ∀ k ∈ [(Key.str "a", Cell.int64 5), (Key.str "c", Cell.boolean true)].map Prod.fst,
            k ∈ [(Key.str "a", tsOfKind .T_int),
              (Key.str "b", tsOptional .T_string)].map Prod.fst))) :=
  ⟨by decide, by decide,
    shape_matches_iff_conforms sampleEnv none none "" []
      [(Key.str "a", tsOfKind .T_int), (Key.str "b", tsOptional .T_string)] (some false)
      .dict false [(Key.str "a", Cell.int64 5), (Key.str "c", Cell.boolean true)]
      (by decide) (by decide)⟩

/-! ## Diagnostics -/

theorem of_length_ne_empty (a b : String) : a ++ " of length " ++ b ≠ "" := by
  intro h
  have h1 := congrArg String.length h
  have h2 : " of length ".length = 11 := by decide
  simp only [String.length_append, h2] at h1
  have h3 : "".length = 0 := by decide
  omega

/-- C5: a tuple descriptor with `N` element descriptors does not match a
list-layout array whose length differs from `N`, whatever the elements are, and
the diagnostic-producing entry point, started on empty strings, reports the
value's kind name followed by " of length L" for the actual length `L` as the
given type (with the rendering of the tuple descriptor as the expected type and
an empty path). -/
theorem tuple_length_mismatch (env : Env) (nullable osf : Option Bool)
    (classname : String) (tsElems : List TypeStructure)
    (tsFields : List (Key × TypeStructure)) (auf : Option Bool)
    (family : ArrayType) (persistent : Bool) (data : List (Key × Cell))
    (hlen : data.length ≠ tsElems.length) :
    checkTypeStructureMatchesCell env
        (.mk .T_tuple nullable osf classname tsElems tsFields auf)
        (.arr family persistent ⟨.vecOrVArray, data⟩) = some false ∧
    checkTypeStructureMatchesCellErr env
        (.mk .T_tuple nullable osf classname tsElems tsFields auf)
        (.arr family persistent ⟨.vecOrVArray, data⟩) "" "" "" =
      some (false,
        ⟨expressionTypeToString env (Cell.arr family persistent ⟨.vecOrVArray, data⟩).m_type ++
            " of length " ++ toString data.length,
          env.toString (.mk .T_tuple nullable osf classname tsElems tsFields auf), ""⟩) := by
  constructor
  · unfold checkTypeStructureMatchesCell checkTypeStructureMatchesCellImpl
    simp only [isNullType_arr, isArrayLikeType_arr, Cell.parr, ArrayData.isVecOrVArray,
      ArrayData.size, Bool.false_eq_true, and_false, if_false, Bool.not_true, ne_eq, hlen,
      not_false_eq_true, if_true, afterSwitch_fst]
  · unfold checkTypeStructureMatchesCellErr checkTypeStructureMatchesCellImpl
    simp only [isNullType_arr, isArrayLikeType_arr, Cell.parr, ArrayData.isVecOrVArray,
      ArrayData.size, Bool.false_eq_true, and_false, if_false, Bool.not_true, ne_eq, hlen,
      not_false_eq_true, if_true, afterSwitch, errOnLen, Bool.not_false, Bool.and_self,
      of_length_ne_empty]

/-- Witness for C5: a tuple of two Ints on a vec of length three. -/
theorem tuple_length_mismatch_witness :
    [(Key.int 0, Cell.int64 1), (Key.int 1, Cell.int64 2), (Key.int 2, Cell.int64 3)].length ≠
      [tsOfKind .T_int, tsOfKind .T_int].length ∧
    checkTypeStructureMatchesCell sampleEnv
        (.mk .T_tuple none none "" [tsOfKind .T_int, tsOfKind .T_int] [] none)
        (.arr .vec false ⟨.vecOrVArray,
          [(Key.int 0, Cell.int64 1), (Key.int 1, Cell.int64 2), (Key.int 2, Cell.int64 3)]⟩) =
      some false ∧
    checkTypeStructureMatchesCellErr sampleEnv
        (.mk .T_tuple none none "" [tsOfKind .T_int, tsOfKind .T_int] [] none)
        (.arr .vec false ⟨.vecOrVArray,
          [(Key.int 0, Cell.int64 1), (Key.int 1, Cell.int64 2), (Key.int 2, Cell.int64 3)]⟩)
        "" "" "" =
      some (false,
        ⟨expressionTypeToString sampleEnv (Cell.arr .vec false ⟨.vecOrVArray,
            [(Key.int 0, Cell.int64 1), (Key.int 1, Cell.int64 2),
              (Key.int 2, Cell.int64 3)]⟩).m_type ++
            " of length " ++
            toString [(Key.int 0, Cell.int64 1), (Key.int 1, Cell.int64 2),
              (Key.int 2, Cell.int64 3)].length,
          sampleEnv.toString
            (.mk .T_tuple none none "" [tsOfKind .T_int, tsOfKind .T_int] [] none), ""⟩) :=
  ⟨by decide,
    tuple_length_mismatch sampleEnv none none "" [tsOfKind .T_int, tsOfKind .T_int] [] none
      .vec false
      [(Key.int 0, Cell.int64 1), (Key.int 1, Cell.int64 2), (Key.int 2, Cell.int64 3)]
      (by decide)⟩

/-- C6: on the shape with field `a` of shape type with field `b: Int`, and the
dict that holds the string "oops" at `a`, `b`, the diagnostic-producing entry
point returns false with the path listing `a` then `b`, the given type
"String", and the rendering of the inner Int descriptor as the expected type.
The escaper is assumed to leave `a` and `b` unchanged and the renderer to give
a non-empty text for the Int descriptor. -/
theorem nested_shape_path (env : Env)
    (ha : env.cEscape "a" = "a") (hb : env.cEscape "b" = "b")
    (hr : env.toString (tsOfKind .T_int) ≠ "") :
    checkTypeStructureMatchesCellErr env
        (tsShape [(.str "a", tsShape [(.str "b", tsOfKind .T_int)] false)] false)
        (dictOf [(.str "a", dictOf [(.str "b", .string false "oops")])]) "" "" "" =
      some (false, ⟨"String", env.toString (tsOfKind .T_int), "[\"a\"][\"b\"]"⟩) := by
  have h1 : checkTypeStructureMatchesCellErr env
        (tsShape [(.str "a", tsShape [(.str "b", tsOfKind .T_int)] false)] false)
        (dictOf [(.str "a", dictOf [(.str "b", .string false "oops")])]) "" "" "" =
      some (false, ⟨"String",
        if (if env.toString (tsOfKind .T_int) = "" then
              env.toString (tsShape [(.str "b", tsOfKind .T_int)] false)
            else env.toString (tsOfKind .T_int)) = "" then
          env.toString (tsShape [(.str "a", tsShape [(.str "b", tsOfKind .T_int)] false)] false)
        else
          (if env.toString (tsOfKind .T_int) = "" then
              env.toString (tsShape [(.str "b", tsOfKind .T_int)] false)
            else env.toString (tsOfKind .T_int)),
        "[" ++ ("\"" ++ env.cEscape "a" ++ "\"") ++ "]" ++
          ("[" ++ ("\"" ++ env.cEscape "b" ++ "\"") ++ "]" ++ "")⟩) := rfl
  rw [h1, if_neg hr, if_neg hr, ha, hb]
  rfl

/-- Witness for C6: the fixture environment meets the three assumptions. -/
theorem nested_shape_path_witness :
    sampleEnv.cEscape "a" = "a" ∧ sampleEnv.cEscape "b" = "b" ∧
    sampleEnv.toString (tsOfKind .T_int) ≠ "" ∧
    checkTypeStructureMatchesCellErr sampleEnv
        (tsShape [(.str "a", tsShape [(.str "b", tsOfKind .T_int)] false)] false)
        (dictOf [(.str "a", dictOf [(.str "b", .string false "oops")])]) "" "" "" =
      some (false, ⟨"String", sampleEnv.toString (tsOfKind .T_int), "[\"a\"][\"b\"]"⟩) :=
  ⟨rfl, rfl, by decide, nested_shape_path sampleEnv rfl rfl (by decide)⟩

/-- C7, as stated, fails. On the shape with the single required field `a: Int`
and the dict with the single key `b`, the first failing declared field is the
required, absent `a`, yet the given type comes back as the kind name of the
enclosing dict, not empty. On the same shape and the empty dict the count
pre-check fails first, and the path comes back empty. -/
theorem missing_required_key_given_type_is_written :
    (ArrayData.findIn (Key.str "a") [(Key.str "b", Cell.int64 1)] = none ∧
      isOptionalShapeField (tsOfKind .T_int) = false ∧
      ¬∃ d, checkTypeStructureMatchesCellErr sampleEnv
            (tsShape [(.str "a", tsOfKind .T_int)] false)
            (dictOf [(.str "b", .int64 1)]) "" "" "" = some (false, d) ∧
          d.errorKey = "[\"a\"]" ∧ d.givenType = "" ∧ d.expectedType ≠ "") ∧
    checkTypeStructureMatchesCellErr sampleEnv (tsShape [(.str "a", tsOfKind .T_int)] false)
        (dictOf [(.str "b", .int64 1)]) "" "" "" =
      some (false, ⟨"Dict", "shape", "[\"a\"]"⟩) ∧
    checkTypeStructureMatchesCellErr sampleEnv (tsShape [(.str "a", tsOfKind .T_int)] false)
        (dictOf []) "" "" "" =
      some (false, ⟨"Dict of length 0", "shape", ""⟩) := by
  have h : checkTypeStructureMatchesCellErr sampleEnv
      (tsShape [(.str "a", tsOfKind .T_int)] false)
      (dictOf [(.str "b", .int64 1)]) "" "" "" =
      some (false, ⟨"Dict", "shape", "[\"a\"]"⟩) := by decide
  refine ⟨⟨rfl, by decide, ?_⟩, h, by decide⟩
  rintro ⟨d, hd, _, hg, _⟩
  rw [h] at hd
  simp only [Option.some.injEq, Prod.mk.injEq, true_and] at hd
  subst hd
  revert hg
  decide

/-- C7, amended: for a shape descriptor and a record-layout value that pass
both count pre-checks, when every declared field before the field `k` is absent
and optional or present and matching, and `k` is a non-optional field absent
from the value, the diagnostic-producing entry point, started on empty strings,
returns false with the path equal to the single bracketed key `k`, the given
type equal to the kind name of the record value itself, and the expected type
equal to the rendering of the whole shape descriptor. -/
theorem shape_missing_required_key (env : Env) (nullable osf : Option Bool)
    (classname : String) (tsElems : List TypeStructure) (auf : Option Bool)
    (pre post : List (Key × TypeStructure)) (k : Key) (f : TypeStructure)
    (family : ArrayType) (persistent : Bool) (data : List (Key × Cell))
    (hreq : numRequiredFields (pre ++ (k, f) :: post) ≤ data.length)
    (hmax : shapeAllowsUnknownFields
        (.mk .T_shape nullable osf classname tsElems (pre ++ (k, f) :: post) auf) = true ∨
      data.length ≤ (pre ++ (k, f) :: post).length)
    (hpre : ∀ kv ∈ pre,
      (kv.1 ∉ data.map Prod.fst → isOptionalShapeField kv.2 = true) ∧
      (∀ c, ArrayData.findIn kv.1 data = some c →
        checkTypeStructureMatchesCell env kv.2 c = some true))
    (hk : k ∉ data.map Prod.fst) (hf : isOptionalShapeField f = false) :
    checkTypeStructureMatchesCellErr env
        (.mk .T_shape nullable osf classname tsElems (pre ++ (k, f) :: post) auf)
        (.arr family persistent ⟨.dictOrDArray, data⟩) "" "" "" =
      some (false,
        ⟨expressionTypeToString env (Cell.arr family persistent ⟨.dictOrDArray, data⟩).m_type,
          env.toString
            (.mk .T_shape nullable osf classname tsElems (pre ++ (k, f) :: post) auf),
          "[" ++ escapedKey env k ++ "]"⟩) := by
  unfold checkTypeStructureMatchesCellErr
  rw [impl_shape_record, if_neg (by omega)]
  have hsecond : ¬((!shapeAllowsUnknownFields
      (.mk .T_shape nullable osf classname tsElems (pre ++ (k, f) :: post) auf) &&
      decide (data.length > (pre ++ (k, f) :: post).length)) = true) := by
    rcases hmax with ha | hle
    · simp [ha]
    · simp only [Bool.and_eq_true, decide_eq_true_eq, not_and]
      intro _
      omega
  rw [if_neg hsecond,
    shapeIterateKV_append_ok env true ⟨.dictOrDArray, data⟩ pre ((k, f) :: post) hpre]
  have hnone := (findIn_eq_none_iff k data).mpr hk
  simp only [shapeIterateKV, ArrayData.find?, hnone, hf, Bool.false_eq_true, if_false,
    afterSwitch, errOnKey, Bool.not_false, Bool.and_self, if_true, String.append_empty]

/-- Witness for the amended C7: an absent optional field and a present matching
field come before the absent required field `a`. -/
theorem shape_missing_required_key_witness :
    numRequiredFields
        ([(Key.str "o", tsOptional .T_int), (Key.str "p", tsOfKind .T_string)] ++
          (Key.str "a", tsOfKind .T_int) :: [(Key.str "z", tsOfKind .T_bool)]) ≤
      [(Key.str "p", Cell.string false "x"), (Key.str "u", Cell.int64 1),
        (Key.str "w", Cell.int64 2)].length ∧
    (shapeAllowsUnknownFields
        (.mk .T_shape none none "" []
          ([(Key.str "o", tsOptional .T_int), (Key.str "p", tsOfKind .T_string)] ++
            (Key.str "a", tsOfKind .T_int) :: [(Key.str "z", tsOfKind .T_bool)]) none) = true ∨
      [(Key.str "p", Cell.string false "x"), (Key.str "u", Cell.int64 1),
        (Key.str "w", Cell.int64 2)].length ≤
        ([(Key.str "o", tsOptional .T_int), (Key.str "p", tsOfKind .T_string)] ++
          (Key.str "a", tsOfKind .T_int) :: [(Key.str "z", tsOfKind .T_bool)]).length) ∧
    checkTypeStructureMatchesCellErr sampleEnv
        (.mk .T_shape none none "" []
          ([(Key.str "o", tsOptional .T_int), (Key.str "p", tsOfKind .T_string)] ++
            (Key.str "a", tsOfKind .T_int) :: [(Key.str "z", tsOfKind .T_bool)]) none)
        (.arr .dict false ⟨.dictOrDArray,
          [(Key.str "p", Cell.string false "x"), (Key.str "u", Cell.int64 1),
            (Key.str "w", Cell.int64 2)]⟩) "" "" "" =
      some (false, ⟨"Dict", "shape", "[\"a\"]"⟩) := by
  have hpre : ∀ kv ∈ [(Key.str "o", tsOptional .T_int), (Key.str "p", tsOfKind .T_string)],
      (kv.1 ∉ [(Key.str "p", Cell.string false "x"), (Key.str "u", Cell.int64 1),
          (Key.str "w", Cell.int64 2)].map Prod.fst → isOptionalShapeField kv.2 = true) ∧
      (∀ c, ArrayData.findIn kv.1 [(Key.str "p", Cell.string false "x"),
          (Key.str "u", Cell.int64 1), (Key.str "w", Cell.int64 2)] = some c →
        checkTypeStructureMatchesCell sampleEnv kv.2 c = some true) := by
    intro kv hkv
    simp only [List.mem_cons, List.mem_singleton, List.not_mem_nil, or_false] at hkv
    rcases hkv with rfl | rfl
    · exact ⟨fun _ => rfl, fun c hc => by simp [ArrayData.findIn] at hc⟩
    · refine ⟨fun h => absurd (by decide) h, fun c hc => ?_⟩
      simp [ArrayData.findIn] at hc
      subst hc
      rfl
  exact ⟨by decide, by decide,
    shape_missing_required_key sampleEnv none none "" [] none
      [(Key.str "o", tsOptional .T_int), (Key.str "p", tsOfKind .T_string)]
      [(Key.str "z", tsOfKind .T_bool)] (Key.str "a") (tsOfKind .T_int) .dict false
      [(Key.str "p", Cell.string false "x"), (Key.str "u", Cell.int64 1),
        (Key.str "w", Cell.int64 2)]
      (by decide) (by decide) hpre (by decide) rfl⟩

/-! ## Kinds decided by the tag alone -/

theorem isIntType_iff (t : DataType) : isIntType t = decide (t = .KindOfInt64) := by
  cases t <;> rfl

theorem isBoolType_iff (t : DataType) : isBoolType t = decide (t = .KindOfBoolean) := by
  cases t <;> rfl

theorem isDoubleType_iff (t : DataType) : isDoubleType t = decide (t = .KindOfDouble) := by
  cases t <;> rfl

theorem isStringType_iff (t : DataType) :
    isStringType t = decide (t = .KindOfString ∨ t = .KindOfPersistentString) := by
  cases t <;> rfl

theorem isResourceType_iff (t : DataType) :
    isResourceType t = decide (t = .KindOfResource) := by
  cases t <;> rfl

/-- The switch of the matcher, for an input that the nullable test lets through. -/
theorem checkTypeStructureMatchesCell_not_null (env : Env) (k : TypeStructure.Kind)
    (n o : Option Bool) (c : String) (es : List TypeStructure)
    (fs : List (Key × TypeStructure)) (a : Option Bool) (c1 : Cell)
    (hn : ¬(n = some true ∧ isNullType c1.m_type = true))
    (r : Bool)
    (hr : ∀ d, checkTypeStructureMatchesCellImpl env false (.mk k n o c es fs a) c1 d =
      if n = some true ∧ isNullType c1.m_type = true then some (true, d)
      else afterSwitch env false (.mk k n o c es fs a) c1.m_type r d) :
    checkTypeStructureMatchesCell env (.mk k n o c es fs a) c1 = some r := by
  unfold checkTypeStructureMatchesCell
  rw [hr, if_neg hn, afterSwitch_fst]

/-- C11: for a descriptor that is not nullable and has kind Int, Bool, Float,
String or Resource, the matcher returns (without aborting) the boolean that
says whether the tag of the value is Int64, Boolean, Double, one of the two
String tags, or Resource, respectively; so it returns true exactly in that
case. -/
theorem primitive_kind_matches_iff_tag (env : Env) (ts : TypeStructure) (c1 : Cell)
    (hn : ts.nullable ≠ some true) :
    (ts.kind = .T_int →
      checkTypeStructureMatchesCell env ts c1 = some (decide (c1.m_type = .KindOfInt64))) ∧
    (ts.kind = .T_bool →
      checkTypeStructureMatchesCell env ts c1 = some (decide (c1.m_type = .KindOfBoolean))) ∧
    (ts.kind = .T_float →
      checkTypeStructureMatchesCell env ts c1 = some (decide (c1.m_type = .KindOfDouble))) ∧
    (ts.kind = .T_string →
      checkTypeStructureMatchesCell env ts c1 =
        some (decide (c1.m_type = .KindOfString ∨ c1.m_type = .KindOfPersistentString))) ∧
    (ts.kind = .T_resource →
      checkTypeStructureMatchesCell env ts c1 =
        some (decide (c1.m_type = .KindOfResource))) := by
  obtain ⟨k, n, o, c, es, fs, a⟩ := ts
  simp only [TypeStructure.nullable, TypeStructure.kind] at hn ⊢
  have hn' : ¬(n = some true ∧ isNullType c1.m_type = true) := fun h => hn h.1
  refine ⟨?_, ?_, ?_, ?_, ?_⟩ <;> intro hk <;> subst hk
  · rw [← isIntType_iff]
    exact checkTypeStructureMatchesCell_not_null env _ n o c es fs a c1 hn' _
      (fun d => by unfold checkTypeStructureMatchesCellImpl; rfl)
  · rw [← isBoolType_iff]
    exact checkTypeStructureMatchesCell_not_null env _ n o c es fs a c1 hn' _
      (fun d => by unfold checkTypeStructureMatchesCellImpl; rfl)
  · rw [← isDoubleType_iff]
    exact checkTypeStructureMatchesCell_not_null env _ n o c es fs a c1 hn' _
      (fun d => by unfold checkTypeStructureMatchesCellImpl; rfl)
  · rw [← isStringType_iff]
    exact checkTypeStructureMatchesCell_not_null env _ n o c es fs a c1 hn' _
      (fun d => by unfold checkTypeStructureMatchesCellImpl; rfl)
  · rw [← isResourceType_iff]
    exact checkTypeStructureMatchesCell_not_null env _ n o c es fs a c1 hn' _
      (fun d => by unfold checkTypeStructureMatchesCellImpl; rfl)

/-- Witness for C11: a String descriptor without the `nullable` key. -/
theorem primitive_kind_matches_iff_tag_witness :
    (tsOfKind .T_string).nullable ≠ some true ∧
    checkTypeStructureMatchesCell sampleEnv (tsOfKind .T_string) (Cell.string true "s") =
      some true ∧
    checkTypeStructureMatchesCell sampleEnv (tsOfKind .T_string) (Cell.int64 7) =
      some false :=
  ⟨by decide,
    ((primitive_kind_matches_iff_tag sampleEnv (tsOfKind .T_string) (Cell.string true "s")
      (by decide)).2.2.2.1 rfl),
    ((primitive_kind_matches_iff_tag sampleEnv (tsOfKind .T_string) (Cell.int64 7)
      (by decide)).2.2.2.1 rfl)⟩

/-- C12: a descriptor of kind Mixed, nullable or not, matches every value,
Null included: both entry points return true, and the diagnostic-producing one
hands the three strings back as they were passed in. -/
theorem mixed_matches_everything (env : Env) (ts : TypeStructure) (c1 : Cell)
    (hk : ts.kind = .T_mixed) :
    checkTypeStructureMatchesCell env ts c1 = some true ∧
      ∀ givenType expectedType errorKey,
        checkTypeStructureMatchesCellErr env ts c1 givenType expectedType errorKey =
          some (true, ⟨givenType, expectedType, errorKey⟩) := by
  obtain ⟨k, n, o, c, es, fs, a⟩ := ts
  simp only [TypeStructure.kind] at hk
  subst hk
  have h : ∀ g d, checkTypeStructureMatchesCellImpl env g
      (.mk .T_mixed n o c es fs a) c1 d = some (true, d) := by
    intro g d
    unfold checkTypeStructureMatchesCellImpl
    dsimp only
    split <;> rfl
  constructor
  · unfold checkTypeStructureMatchesCell
    rw [h]
    rfl
  · intro gt et ek
    exact h true _

/-- Witness for C12: a Mixed descriptor on Null and on a dict, with strings set
on entry. -/
theorem mixed_matches_everything_witness :
    (tsOfKind .T_mixed).kind = .T_mixed ∧
    checkTypeStructureMatchesCell sampleEnv (tsOfKind .T_mixed) Cell.null = some true ∧
    checkTypeStructureMatchesCellErr sampleEnv (tsOfKind .T_mixed) (dictOf []) "g" "e" "k" =
      some (true, ⟨"g", "e", "k"⟩) :=
  ⟨rfl, (mixed_matches_everything sampleEnv (tsOfKind .T_mixed) Cell.null rfl).1,
    (mixed_matches_everything sampleEnv (tsOfKind .T_mixed) (dictOf []) rfl).2 "g" "e" "k"⟩

/-- C16: when the nullable test does not apply (the descriptor is not nullable
or the value is not of null type), a descriptor of kind NoReturn, Array,
Unresolved, TypeAccess or Xhp gives the defined result false; a descriptor of
kind Void gives true exactly for a value of null type; and a descriptor of kind
NonNull gives true exactly for a value that is not of null type. -/
theorem never_void_nonnull_kinds (env : Env) (ts : TypeStructure) (c1 : Cell)
    (hn : ¬(ts.nullable = some true ∧ isNullType c1.m_type = true)) :
    ((ts.kind = .T_noreturn ∨ ts.kind = .T_array ∨ ts.kind = .T_unresolved ∨
        ts.kind = .T_typeaccess ∨ ts.kind = .T_xhp) →
      checkTypeStructureMatchesCell env ts c1 = some false) ∧
    (ts.kind = .T_void →
      checkTypeStructureMatchesCell env ts c1 = some (isNullType c1.m_type)) ∧
    (ts.kind = .T_nonnull →
      checkTypeStructureMatchesCell env ts c1 = some (!isNullType c1.m_type)) := by
  obtain ⟨k, n, o, c, es, fs, a⟩ := ts
  simp only [TypeStructure.nullable, TypeStructure.kind] at hn ⊢
  refine ⟨?_, ?_, ?_⟩
  · intro hk
    rcases hk with hk | hk | hk | hk | hk <;> subst hk <;>
      exact checkTypeStructureMatchesCell_not_null env _ n o c es fs a c1 hn _
        (fun d => by unfold checkTypeStructureMatchesCellImpl; rfl)
  · intro hk
    subst hk
    exact checkTypeStructureMatchesCell_not_null env _ n o c es fs a c1 hn _
      (fun d => by unfold checkTypeStructureMatchesCellImpl; rfl)
  · intro hk
    subst hk
    exact checkTypeStructureMatchesCell_not_null env _ n o c es fs a c1 hn _
      (fun d => by unfold checkTypeStructureMatchesCellImpl; rfl)

/-- Witness for C16: a nullable Void descriptor on an integer, on which the
nullable test does not apply. -/
theorem never_void_nonnull_kinds_witness :
    ¬((TypeStructure.mk .T_void (some true) none "" [] [] none).nullable = some true ∧
      isNullType (Cell.int64 3).m_type = true) ∧
    checkTypeStructureMatchesCell sampleEnv
        (TypeStructure.mk .T_void (some true) none "" [] [] none) (Cell.int64 3) =
      some false :=
  ⟨by decide,
    (never_void_nonnull_kinds sampleEnv
      (TypeStructure.mk .T_void (some true) none "" [] [] none) (Cell.int64 3)
      (by decide)).2.1 rfl⟩

/-- C15: `typeStructureCouldBeNonStatic` gives the same answer on two
descriptors of the same kind, whatever their other entries; the answer is true
exactly for the kinds Tuple, Fun, Array, Shape, Class, Interface, Trait, Dict,
Vec, Keyset, VecOrDict, Unresolved and TypeAccess, and false exactly for Void,
Int, Bool, Float, String, Resource, Num, ArrayKey, NoReturn, Mixed, TypeVar,
Enum, NonNull and Xhp. -/
theorem typeStructureCouldBeNonStatic_by_kind :
    (∀ d d' : TypeStructure, d.kind = d'.kind →
      typeStructureCouldBeNonStatic d = typeStructureCouldBeNonStatic d') ∧
    (∀ d : TypeStructure, typeStructureCouldBeNonStatic d = true ↔
      d.kind = .T_tuple ∨ d.kind = .T_fun ∨ d.kind = .T_array ∨ d.kind = .T_shape ∨
      d.kind = .T_class ∨ d.kind = .T_interface ∨ d.kind = .T_trait ∨ d.kind = .T_dict ∨
      d.kind = .T_vec ∨ d.kind = .T_keyset ∨ d.kind = .T_vec_or_dict ∨
      d.kind = .T_unresolved ∨ d.kind = .T_typeaccess) ∧
    (∀ d : TypeStructure, typeStructureCouldBeNonStatic d = false ↔
      d.kind = .T_void ∨ d.kind = .T_int ∨ d.kind = .T_bool ∨ d.kind = .T_float ∨
      d.kind = .T_string ∨ d.kind = .T_resource ∨ d.kind = .T_num ∨ d.kind = .T_arraykey ∨
      d.kind = .T_noreturn ∨ d.kind = .T_mixed ∨ d.kind = .T_typevar ∨ d.kind = .T_enum ∨
      d.kind = .T_nonnull ∨ d.kind = .T_xhp) := by
  refine ⟨?_, ?_, ?_⟩
  · intro d d' h
    unfold typeStructureCouldBeNonStatic
    rw [h]
  · intro d
    unfold typeStructureCouldBeNonStatic
    cases d.kind <;> simp
  · intro d
    unfold typeStructureCouldBeNonStatic
    cases d.kind <;> simp

/-! ## The legality check -/

theorem firstIllegalIn_append (l₁ l₂ : List TypeStructure) :
    firstIllegalIn (l₁ ++ l₂) =
      match firstIllegalIn l₁ with
      | .error msg => .error msg
      | .ok () => firstIllegalIn l₂ := by
  unfold firstIllegalIn
  rw [List.findSome?_append]
  cases List.findSome? (fun node => illegalKindMessage node.kind) l₁ <;> rfl

theorem errorOnList_eq (es : List TypeStructure)
    (hP : ∀ t ∈ es, errorOnIsAsExpressionInvalidTypes t = firstIllegalIn (reachableNodes t)) :
    errorOnIsAsExpressionInvalidTypesList es = firstIllegalIn (reachableNodesList es) := by
  induction es with
  | nil => rfl
  | cons t rest ih =>
    rw [errorOnIsAsExpressionInvalidTypesList, reachableNodesList, firstIllegalIn_append,
      hP t (List.mem_cons_self _ _), ih (fun t ht => hP t (List.mem_cons_of_mem _ ht))]

theorem errorOnFields_eq (fs : List (Key × TypeStructure))
    (hP : ∀ kv ∈ fs,
      errorOnIsAsExpressionInvalidTypes kv.2 = firstIllegalIn (reachableNodes kv.2)) :
    errorOnIsAsExpressionInvalidTypesFields fs = firstIllegalIn (reachableNodesFields fs) := by
  induction fs with
  | nil => rfl
  | cons kv rest ih =>
    obtain ⟨k, t⟩ := kv
    rw [errorOnIsAsExpressionInvalidTypesFields, reachableNodesFields, firstIllegalIn_append,
      hP (k, t) (List.mem_cons_self _ _), ih (fun kv hkv => hP kv (List.mem_cons_of_mem _ hkv))]

theorem firstIllegalIn_cons_legal (node : TypeStructure) (rest : List TypeStructure)
    (h : illegalKindMessage node.kind = none) :
    firstIllegalIn (node :: rest) = firstIllegalIn rest := by
  unfold firstIllegalIn
  rw [List.findSome?_cons, h]

theorem errorOn_eq_firstIllegalIn :
    ∀ ts, errorOnIsAsExpressionInvalidTypes ts = firstIllegalIn (reachableNodes ts) := by
  refine TypeStructure.induct_ts _ ?_
  intro k n o c es fs a ihE ihF
  unfold errorOnIsAsExpressionInvalidTypes reachableNodes
  cases k
  case T_tuple =>
    rw [if_pos rfl, firstIllegalIn_cons_legal _ _ (by rfl)]
    exact errorOnList_eq es ihE
  case T_shape =>
    rw [if_neg (by decide), if_pos rfl, firstIllegalIn_cons_legal _ _ (by rfl)]
    exact errorOnFields_eq fs ihF
  all_goals rfl

/-- The first node whose kind has a message decides the outcome, also when
nodes with the same message come before it. -/
theorem firstIllegalIn_split (pre post : List TypeStructure) (node : TypeStructure)
    (msg : String)
    (hpre : ∀ m ∈ pre, illegalKindMessage m.kind = none ∨ illegalKindMessage m.kind = some msg)
    (hnode : illegalKindMessage node.kind = some msg) :
    firstIllegalIn (pre ++ node :: post) = .error msg := by
  induction pre with
  | nil =>
    unfold firstIllegalIn
    rw [List.nil_append, List.findSome?_cons, hnode]
  | cons m rest ih =>
    have ih' := ih (fun m hm => hpre m (List.mem_cons_of_mem _ hm))
    rcases hpre m (List.mem_cons_self _ _) with h | h
    · rw [List.cons_append, firstIllegalIn_cons_legal _ _ h]
      exact ih'
    · unfold firstIllegalIn
      rw [List.cons_append, List.findSome?_cons, h]

theorem illegalKindMessage_eq_none_iff (k : TypeStructure.Kind) :
    illegalKindMessage k = none ↔
      k ≠ .T_fun ∧ k ≠ .T_array ∧ k ≠ .T_typevar ∧ k ≠ .T_trait := by
  cases k <;> simp [illegalKindMessage]

/-- C13: `errorOnIsAsExpressionInvalidTypes` has the outcome described in
words by `firstIllegalKindError`: it returns normally exactly when no node
reachable through Tuple element descriptors and Shape fields has kind Fun,
Array, TypeVar or Trait, and otherwise it raises the message of the first such
node in depth-first declaration order, each of the four kinds having its own
message. -/
theorem errorOnIsAsExpressionInvalidTypes_first_illegal (d : TypeStructure) :
    errorOnIsAsExpressionInvalidTypes d = firstIllegalKindError d ∧
    (errorOnIsAsExpressionInvalidTypes d = .ok () ↔
      ∀ node ∈ reachableNodes d,
        node.kind ≠ .T_fun ∧ node.kind ≠ .T_array ∧ node.kind ≠ .T_typevar ∧
          node.kind ≠ .T_trait) ∧
    (∀ pre node post, reachableNodes d = pre ++ node :: post →
      (∀ m ∈ pre, m.kind ≠ .T_fun ∧ m.kind ≠ .T_array ∧ m.kind ≠ .T_typevar ∧
        m.kind ≠ .T_trait) →
      (node.kind = .T_fun → errorOnIsAsExpressionInvalidTypes d =
        .error "\"is\" and \"as\" operators cannot be used with a function") ∧
      (node.kind = .T_array → errorOnIsAsExpressionInvalidTypes d =
        .error "\"is\" and \"as\" operators cannot be used with an array") ∧
      (node.kind = .T_typevar → errorOnIsAsExpressionInvalidTypes d =
        .error "\"is\" and \"as\" operators cannot be used with a generic type") ∧
      (node.kind = .T_trait → errorOnIsAsExpressionInvalidTypes d =
        .error "\"is\" and \"as\" operators cannot be used with a trait")) := by
  refine ⟨errorOn_eq_firstIllegalIn d, ?_, ?_⟩
  · rw [errorOn_eq_firstIllegalIn]
    unfold firstIllegalIn
    constructor
    · intro h node hnode
      rw [← illegalKindMessage_eq_none_iff]
      cases hf : List.findSome? (fun node => illegalKindMessage node.kind) (reachableNodes d) with
      | none => exact List.findSome?_eq_none_iff.mp hf node hnode
      | some msg => rw [hf] at h; cases h
    · intro h
      have : List.findSome? (fun node => illegalKindMessage node.kind) (reachableNodes d) =
          none :=
        List.findSome?_eq_none_iff.mpr
          (fun node hnode => (illegalKindMessage_eq_none_iff _).mpr (h node hnode))
      rw [this]
  · intro pre node post hsplit hpre
    rw [errorOn_eq_firstIllegalIn, hsplit]
    have hpre' : ∀ msg, ∀ m ∈ pre,
        illegalKindMessage m.kind = none ∨ illegalKindMessage m.kind = some msg :=
      fun msg m hm => Or.inl ((illegalKindMessage_eq_none_iff _).mpr (hpre m hm))
    refine ⟨fun hk => ?_, fun hk => ?_, fun hk => ?_, fun hk => ?_⟩ <;>
      exact firstIllegalIn_split pre post node _ (hpre' _) (by rw [hk]; rfl)

/-- C14, as stated, fails: the tuple of an Array descriptor and a Fun
descriptor contains a node of kind Fun, and the check raises the array-specific
error, not the function-specific one. -/
theorem fun_after_array_raises_array_error :
    (∃ node ∈ reachableNodes (tsTuple [tsOfKind .T_array, tsOfKind .T_fun]),
      node.kind = .T_fun) ∧
    errorOnIsAsExpressionInvalidTypes (tsTuple [tsOfKind .T_array, tsOfKind .T_fun]) =
      .error "\"is\" and \"as\" operators cannot be used with an array" ∧
    errorOnIsAsExpressionInvalidTypes (tsTuple [tsOfKind .T_array, tsOfKind .T_fun]) ≠
      .error "\"is\" and \"as\" operators cannot be used with a function" := by
  refine ⟨⟨tsOfKind .T_fun, by simp [reachableNodes, reachableNodesList, tsTuple, tsOfKind], rfl⟩,
    rfl, ?_⟩
  rw [show errorOnIsAsExpressionInvalidTypes (tsTuple [tsOfKind .T_array, tsOfKind .T_fun]) =
    .error "\"is\" and \"as\" operators cannot be used with an array" from rfl]
  intro h
  injection h with h
  revert h
  decide

/-- C14, amended: when a node of kind Fun is reachable in a descriptor, the
check raises an error instead of returning normally, and the error is the
function-specific one whenever no node of kind Array, TypeVar or Trait comes
before that node in depth-first declaration order. -/
theorem reachable_fun_raises (d : TypeStructure) (pre post : List TypeStructure)
    (node : TypeStructure) (hsplit : reachableNodes d = pre ++ node :: post)
    (hfun : node.kind = .T_fun) :
    (∃ msg, errorOnIsAsExpressionInvalidTypes d = .error msg) ∧
    ((∀ m ∈ pre, m.kind ≠ .T_array ∧ m.kind ≠ .T_typevar ∧ m.kind ≠ .T_trait) →
      errorOnIsAsExpressionInvalidTypes d =
        .error "\"is\" and \"as\" operators cannot be used with a function") := by
  constructor
  · cases h : errorOnIsAsExpressionInvalidTypes d with
    | error msg => exact ⟨msg, rfl⟩
    | ok u =>
      rw [errorOn_eq_firstIllegalIn] at h
      unfold firstIllegalIn at h
      cases hf : List.findSome? (fun node => illegalKindMessage node.kind) (reachableNodes d) with
      | none =>
        have := List.findSome?_eq_none_iff.mp hf node (by rw [hsplit]; simp)
        simp only [hfun] at this
        cases this
      | some msg => rw [hf] at h; cases h
  · intro hpre
    rw [errorOn_eq_firstIllegalIn, hsplit]
    refine firstIllegalIn_split pre post node _ ?_ (by rw [hfun]; rfl)
    intro m hm
    have := hpre m hm
    cases hk : m.kind <;> simp_all [illegalKindMessage]

/-- Witness for the amended C14: a shape whose field `x` is a tuple of an Int
and a Fun; the Fun node is the fourth reachable node. -/
theorem reachable_fun_raises_witness :
    reachableNodes (tsShape [(.str "x", tsTuple [tsOfKind .T_int, tsOfKind .T_fun])] false) =
      [tsShape [(.str "x", tsTuple [tsOfKind .T_int, tsOfKind .T_fun])] false,
        tsTuple [tsOfKind .T_int, tsOfKind .T_fun], tsOfKind .T_int] ++
        tsOfKind .T_fun :: [] ∧
    (tsOfKind .T_fun).kind = .T_fun ∧
    errorOnIsAsExpressionInvalidTypes
        (tsShape [(.str "x", tsTuple [tsOfKind .T_int, tsOfKind .T_fun])] false) =
      .error "\"is\" and \"as\" operators cannot be used with a function" :=
  ⟨rfl, rfl,
    (reachable_fun_raises
      (tsShape [(.str "x", tsTuple [tsOfKind .T_int, tsOfKind .T_fun])] false)
      [tsShape [(.str "x", tsTuple [tsOfKind .T_int, tsOfKind .T_fun])] false,
        tsTuple [tsOfKind .T_int, tsOfKind .T_fun], tsOfKind .T_int] []
      (tsOfKind .T_fun) rfl rfl).2
      (by
        intro m hm
        simp only [List.mem_cons, List.mem_singleton, List.not_mem_nil, or_false] at hm
        rcases hm with rfl | rfl | rfl <;> decide)⟩

/-! ## Tuples -/

theorem checkTypeStructureMatchesCell_eq_map (env : Env) (g : Bool) (ts : TypeStructure)
    (c1 : Cell) (d : Diag) :
    checkTypeStructureMatchesCell env ts c1 =
      (checkTypeStructureMatchesCellImpl env g ts c1 d).map Prod.fst :=
  impl_fst_indep env false g ts c1 Diag.empty d

theorem forall_getElem?_cons {α β : Type} (P : α → β → Prop) (a : α) (as : List α) (b : β)
    (bs : List β) :
    (∀ (i : Nat) x y, (a :: as)[i]? = some x → (b :: bs)[i]? = some y → P x y) ↔
      P a b ∧ ∀ (i : Nat) x y, as[i]? = some x → bs[i]? = some y → P x y := by
  constructor
  · intro h
    exact ⟨h 0 a b (by simp) (by simp),
      fun i x y hx hy => h (i + 1) x y (by simpa using hx) (by simpa using hy)⟩
  · rintro ⟨h0, hrest⟩ i x y hx hy
    cases i with
    | zero =>
      simp only [List.getElem?_cons_zero, Option.some.injEq] at hx hy
      subst hx hy
      exact h0
    | succ i =>
      simp only [List.getElem?_cons_succ] at hx hy
      exact hrest i x y hx hy

/-- The tuple loop ends with `elemsDidMatch` exactly when each element matches
the descriptor at its position. -/
theorem tupleIterateKV_true_iff (env : Env) (g : Bool) (es : List TypeStructure) :
    ∀ (cs : List Cell) (k : Nat) (d : Diag), cs.length = es.length →
      ((tupleIterateKV env g es cs k d).map Prod.fst = some true ↔
        ∀ (i : Nat) t c, es[i]? = some t → cs[i]? = some c →
          checkTypeStructureMatchesCell env t c = some true) := by
  induction es with
  | nil =>
    intro cs k d hlen
    cases cs with
    | nil => simp [tupleIterateKV]
    | cons c cs => simp at hlen
  | cons t es ih =>
    intro cs k d hlen
    cases cs with
    | nil => simp at hlen
    | cons c cs =>
      have hlen' : cs.length = es.length := by simpa using hlen
      rw [forall_getElem?_cons, checkTypeStructureMatchesCell_eq_map env g t c d]
      simp only [tupleIterateKV]
      rcases h1 : checkTypeStructureMatchesCellImpl env g t c d with _ | ⟨b, x⟩
      · simp
      · cases b
        · simp
        · simp only [Option.map_some', true_and]
          exact ih cs (k + 1) x hlen'

/-- The tuple case on a list-layout array, after the tests that such a value
passes (not null, array-like, `isVecOrVArray()`). -/
theorem impl_tuple_list (env : Env) (g : Bool) (n o : Option Bool) (c : String)
    (es : List TypeStructure) (fs : List (Key × TypeStructure)) (a : Option Bool)
    (family : ArrayType) (persistent : Bool) (data : List (Key × Cell)) (d : Diag) :
    checkTypeStructureMatchesCellImpl env g (.mk .T_tuple n o c es fs a)
        (.arr family persistent ⟨.vecOrVArray, data⟩) d =
      if data.length ≠ es.length then
        afterSwitch env g (.mk .T_tuple n o c es fs a)
          (Cell.arr family persistent ⟨.vecOrVArray, data⟩).m_type false
          (errOnLen env g (Cell.arr family persistent ⟨.vecOrVArray, data⟩).m_type
            data.length d)
      else tupleIterateKV env g es (data.map Prod.snd) 0 d := by
  unfold checkTypeStructureMatchesCellImpl
  simp only [isNullType_arr, isArrayLikeType_arr, Cell.parr, ArrayData.isVecOrVArray,
    ArrayData.size, ArrayData.values, Bool.false_eq_true, and_false, if_false, Bool.not_true]

/-- The tuple case on a value that is not a list-layout array. -/
theorem impl_tuple_not_list (env : Env) (g : Bool) (n o : Option Bool) (c : String)
    (es : List TypeStructure) (fs : List (Key × TypeStructure)) (a : Option Bool)
    (c1 : Cell) (d : Diag)
    (hn : ¬(n = some true ∧ isNullType c1.m_type = true))
    (hv : ∀ arr, c1.parr = some arr → arr.isVecOrVArray = false) :
    checkTypeStructureMatchesCellImpl env g (.mk .T_tuple n o c es fs a) c1 d =
      afterSwitch env g (.mk .T_tuple n o c es fs a) c1.m_type false d := by
  unfold checkTypeStructureMatchesCellImpl
  dsimp only
  rw [if_neg hn]
  cases hp : c1.parr with
  | none => simp only [ite_self]
  | some arr =>
    dsimp only
    rw [hv arr hp]
    simp only [Bool.not_false, if_true, ite_self]

/-- C18: for a tuple descriptor and a value that the nullable test lets
through, the matcher returns true exactly when the value is an array with list
layout whose length is the number of element descriptors and whose element at
each index matches the element descriptor at that index; on a value that is
not an array, and on an array whose layout is not the list layout, it returns
false. -/
theorem tuple_matches_iff (env : Env) (nullable osf : Option Bool) (classname : String)
    (tsElems : List TypeStructure) (tsFields : List (Key × TypeStructure))
    (auf : Option Bool) (c1 : Cell)
    (hn : ¬(nullable = some true ∧ isNullType c1.m_type = true)) :
    (checkTypeStructureMatchesCell env
        (.mk .T_tuple nullable osf classname tsElems tsFields auf) c1 = some true ↔
      ∃ family persistent data,
        c1 = Cell.arr family persistent ⟨.vecOrVArray, data⟩ ∧
        data.length = tsElems.length ∧
        ∀ (i : Nat) t c, tsElems[i]? = some t → (data.map Prod.snd)[i]? = some c →
          checkTypeStructureMatchesCell env t c = some true) ∧
    (c1.parr = none →
      checkTypeStructureMatchesCell env
        (.mk .T_tuple nullable osf classname tsElems tsFields auf) c1 = some false) ∧
    (∀ arr, c1.parr = some arr → arr.isVecOrVArray = false →
      checkTypeStructureMatchesCell env
        (.mk .T_tuple nullable osf classname tsElems tsFields auf) c1 = some false) := by
  have hnot : (∀ arr, c1.parr = some arr → arr.isVecOrVArray = false) →
      checkTypeStructureMatchesCell env
        (.mk .T_tuple nullable osf classname tsElems tsFields auf) c1 = some false := by
    intro hv
    rw [checkTypeStructureMatchesCell_eq_map env false _ _ Diag.empty,
      impl_tuple_not_list env false nullable osf classname tsElems tsFields auf c1 _ hn hv,
      afterSwitch_fst]
  refine ⟨?_, fun hp => hnot (fun arr h => by rw [hp] at h; cases h),
    fun arr hp hl => hnot (fun arr' h => by rw [hp] at h; cases h; exact hl)⟩
  constructor
  · intro h
    cases c1 with
    | arr family persistent parr =>
      obtain ⟨layout, data⟩ := parr
      cases layout with
      | vecOrVArray =>
        refine ⟨family, persistent, data, rfl, ?_⟩
        rw [checkTypeStructureMatchesCell_eq_map env false _ _ Diag.empty,
          impl_tuple_list] at h
        split_ifs at h with hlen
        · rw [afterSwitch_fst] at h
          cases h
        · have hlen' : data.length = tsElems.length := by
            by_contra hc
            exact hlen hc
          refine ⟨hlen', ?_⟩
          exact (tupleIterateKV_true_iff env false tsElems (data.map Prod.snd) 0 _
            (by simpa using hlen')).mp h
      | dictOrDArray =>
        rw [hnot (fun arr h => by cases h; rfl)] at h
        cases h
      | other =>
        rw [hnot (fun arr h => by cases h; rfl)] at h
        cases h
    | _ =>
      rw [hnot (fun arr h => by cases h)] at h
      cases h
  · rintro ⟨family, persistent, data, rfl, hlen, hall⟩
    rw [checkTypeStructureMatchesCell_eq_map env false _ _ Diag.empty, impl_tuple_list,
      if_neg (by simpa using hlen)]
    exact (tupleIterateKV_true_iff env false tsElems (data.map Prod.snd) 0 _
      (by simpa using hlen)).mpr hall

/-- Witness for C18: a nullable tuple of an Int and a String on a vec, on a
dict and on an integer. -/
theorem tuple_matches_iff_witness :
    ¬((some true : Option Bool) = some true ∧
      isNullType (vecOf [.int64 1, .string false "x"]).m_type = true) ∧
    checkTypeStructureMatchesCell sampleEnv
        (.mk .T_tuple (some true) none "" [tsOfKind .T_int, tsOfKind .T_string] [] none)
        (vecOf [.int64 1, .string false "x"]) = some true ∧
    checkTypeStructureMatchesCell sampleEnv
        (.mk .T_tuple (some true) none "" [tsOfKind .T_int, tsOfKind .T_string] [] none)
        (Cell.int64 1) = some false :=
  ⟨by decide,
    (tuple_matches_iff sampleEnv (some true) none "" [tsOfKind .T_int, tsOfKind .T_string] []
      none (vecOf [.int64 1, .string false "x"]) (by decide)).1.mpr
      ⟨.vec, false, [(Key.int 0, .int64 1), (Key.int 1, .string false "x")], rfl, rfl, by
        intro i t c ht hc
        match i with
        | 0 =>
          simp at ht hc
          subst ht hc
          rfl
        | 1 =>
          simp at ht hc
          subst ht hc
          rfl
        | i + 2 => simp at ht⟩,
    (tuple_matches_iff sampleEnv (some true) none "" [tsOfKind .T_int, tsOfKind .T_string] []
      none (Cell.int64 1) (by decide)).2.1 rfl⟩

theorem escapedKey_int_ofNat (env : Env) (i : Nat) :
    escapedKey env (.int (i : Int)) = toString i := rfl

/-- The tuple loop stops at the first position whose element does not match:
the strings are those of that nested call, with the position put in front of
the path. -/
theorem tupleIterateKV_first_failure (env : Env) (es : List TypeStructure) :
    ∀ (cs : List Cell) (k i : Nat) (t : TypeStructure) (c : Cell) (d di : Diag),
      es[i]? = some t → cs[i]? = some c →
      (∀ (j : Nat) t' c', j < i → es[j]? = some t' → cs[j]? = some c' →
        checkTypeStructureMatchesCell env t' c' = some true) →
      checkTypeStructureMatchesCellImpl env true t c d = some (false, di) →
      tupleIterateKV env true es cs k d =
        some (false, errOnKey env true (.int ((k + i : Nat) : Int)) di) := by
  induction es with
  | nil => intro cs k i t c d di ht; simp at ht
  | cons t0 es ih =>
    intro cs k i t c d di ht hc hbefore hfail
    cases cs with
    | nil => simp at hc
    | cons c0 cs =>
      cases i with
      | zero =>
        simp only [List.getElem?_cons_zero, Option.some.injEq] at ht hc
        subst ht hc
        simp only [tupleIterateKV, hfail, Nat.add_zero]
      | succ i =>
        simp only [List.getElem?_cons_succ] at ht hc
        have h0 := hbefore 0 t0 c0 (Nat.succ_pos i) (by simp) (by simp)
        have h0' := (impl_true_iff env true t0 c0 d).mpr h0
        simp only [tupleIterateKV, h0']
        have := ih cs (k + 1) i t c d di ht hc
          (fun j t' c' hj ht' hc' =>
            hbefore (j + 1) t' c' (Nat.succ_lt_succ hj) (by simpa using ht') (by simpa using hc'))
          hfail
        rw [this]
        have hki : k + 1 + i = k + (i + 1) := by omega
        rw [hki]

/-- C19: for a tuple descriptor and a list-layout array of equal length, when
the elements before index `i` match and the element at index `i`, matched alone
by the diagnostic-producing entry point started on empty strings, returns false
with diagnostics `di`, the diagnostic-producing entry point on the tuple,
started on empty strings, returns false with the given and expected types of
`di` and with the path made of the bracketed index `i` followed by the path of
`di`; the elements after index `i` play no part. -/
theorem tuple_first_failing_index (env : Env) (nullable osf : Option Bool)
    (classname : String) (tsElems : List TypeStructure)
    (tsFields : List (Key × TypeStructure)) (auf : Option Bool)
    (family : ArrayType) (persistent : Bool) (data : List (Key × Cell))
    (i : Nat) (t : TypeStructure) (c : Cell) (di : Diag)
    (hlen : data.length = tsElems.length)
    (ht : tsElems[i]? = some t) (hc : (data.map Prod.snd)[i]? = some c)
    (hbefore : ∀ (j : Nat) t' c', j < i → tsElems[j]? = some t' →
      (data.map Prod.snd)[j]? = some c' →
      checkTypeStructureMatchesCell env t' c' = some true)
    (hfail : checkTypeStructureMatchesCellErr env t c "" "" "" = some (false, di)) :
    checkTypeStructureMatchesCellErr env
        (.mk .T_tuple nullable osf classname tsElems tsFields auf)
        (.arr family persistent ⟨.vecOrVArray, data⟩) "" "" "" =
      some (false,
        ⟨di.givenType, di.expectedType, "[" ++ toString i ++ "]" ++ di.errorKey⟩) := by
  unfold checkTypeStructureMatchesCellErr at hfail ⊢
  rw [impl_tuple_list, if_neg (by simpa using hlen),
    tupleIterateKV_first_failure env tsElems (data.map Prod.snd) 0 i t c _ di ht hc hbefore
      hfail]
  simp only [errOnKey, if_true, Nat.zero_add, escapedKey_int_ofNat]

/-- Witness for C19: a tuple of an Int, a shape and a Bool on a vec whose
second element is a dict with a wrong value at `b`, and whose third element is
wrong as well. -/
theorem tuple_first_failing_index_witness :
    checkTypeStructureMatchesCellErr sampleEnv
        (tsShape [(.str "b", tsOfKind .T_int)] false)
        (dictOf [(.str "b", .string false "oops")]) "" "" "" =
      some (false, ⟨"String", "int", "[\"b\"]"⟩) ∧
    checkTypeStructureMatchesCellErr sampleEnv
        (.mk .T_tuple none none ""
          [tsOfKind .T_int, tsShape [(.str "b", tsOfKind .T_int)] false, tsOfKind .T_bool]
          [] none)
        (.arr .vec false ⟨.vecOrVArray,
          [(Key.int 0, Cell.int64 1),
            (Key.int 1, dictOf [(.str "b", .string false "oops")]),
            (Key.int 2, Cell.null)]⟩) "" "" "" =
      some (false, ⟨"String", "int", "[1][\"b\"]"⟩) :=
  ⟨by decide,
    tuple_first_failing_index sampleEnv none none ""
      [tsOfKind .T_int, tsShape [(.str "b", tsOfKind .T_int)] false, tsOfKind .T_bool] [] none
      .vec false
      [(Key.int 0, Cell.int64 1), (Key.int 1, dictOf [(.str "b", .string false "oops")]),
        (Key.int 2, Cell.null)]
      1 (tsShape [(.str "b", tsOfKind .T_int)] false)
      (dictOf [(.str "b", .string false "oops")]) ⟨"String", "int", "[\"b\"]"⟩
      rfl rfl rfl
      (by
        intro j t' c' hj ht' hc'
        have hj0 : j = 0 := by omega
        subst hj0
        simp at ht' hc'
        subst ht' hc'
        rfl)
      (by decide)⟩

/-! ## The closing count test of shapes -/

/-- C20: the closing count test is not implied by the two count pre-checks.
The shape with the single optional field `a: Int` that disallows unknown
fields, and the dict with the single key `c`, are such that the keys are
pairwise distinct, the field count (1) is at least the required count (0) and
at most the declared count (1), the only declared field is absent and optional,
the field loop succeeds having consumed 0 fields, and the matcher returns
false. -/
theorem closing_count_check_not_redundant (env : Env) :
    ∃ (tsFields : List (Key × TypeStructure)) (data : List (Key × Cell)),
      shapeAllowsUnknownFields (tsShape tsFields false) = false ∧
      (tsFields.map Prod.fst).Nodup ∧ (data.map Prod.fst).Nodup ∧
      numRequiredFields tsFields ≤ data.length ∧ data.length ≤ tsFields.length ∧
      (∀ kv ∈ tsFields,
        (kv.1 ∉ data.map Prod.fst ∧ isOptionalShapeField kv.2 = true) ∨
        (∃ c, ArrayData.findIn kv.1 data = some c ∧
          checkTypeStructureMatchesCell env kv.2 c = some true)) ∧
      (∃ numExpectedFields d',
        shapeIterateKV env false ⟨.dictOrDArray, data⟩ tsFields 0 Diag.empty =
          some (true, numExpectedFields, d') ∧
        numExpectedFields ≠ data.length) ∧
      checkTypeStructureMatchesCell env (tsShape tsFields false) (dictOf data) = some false := by
  refine ⟨[(.str "a", tsOptional .T_int)], [(.str "c", .int64 1)], rfl, by decide, by decide,
    by decide, by decide, ?_, ⟨0, Diag.empty, rfl, by decide⟩, rfl⟩
  intro kv hkv
  simp only [List.mem_singleton] at hkv
  subst hkv
  exact Or.inl ⟨by decide, rfl⟩

/-! ## Classes, interfaces and enums -/

theorem cellInstanceOf_eq_true_iff (env : Env) (tv : Cell) (ne : String)
    (supports : String → Bool)
    (h : cellInstanceOf env tv ne =
      match env.lookupClass ne with
      | some cls => supports cls.name
      | none => false) :
    cellInstanceOf env tv ne = true ↔
      ∃ cls, env.lookupClass ne = some cls ∧ supports cls.name = true := by
  rw [h]
  cases env.lookupClass ne with
  | none => simp
  | some cls => simp

/-- C21: for a descriptor of kind Class or Interface and a value that the
nullable test lets through, the matcher returns the result of `cellInstanceOf`
(it does not abort): false on Uninit, Null, Bool and Resource values whatever
the registry holds; false on every value when the class name does not resolve;
on an object, true exactly when the class resolves and the object is an
instance of it; and on an Int, Float, String, Vec, Dict, Keyset or Array value,
true exactly when the class resolves and the capability predicate of that value
kind holds for the name of the class. -/
theorem class_interface_matches (env : Env) (ts : TypeStructure) (c1 : Cell)
    (hk : ts.kind = .T_class ∨ ts.kind = .T_interface)
    (hn : ¬(ts.nullable = some true ∧ isNullType c1.m_type = true)) :
    checkTypeStructureMatchesCell env ts c1 = some (cellInstanceOf env c1 ts.classname) ∧
    ((c1 = .uninit ∨ c1 = .null ∨ (∃ b, c1 = .boolean b) ∨ (∃ pres, c1 = .resource pres)) →
      checkTypeStructureMatchesCell env ts c1 = some false) ∧
    (env.lookupClass ts.classname = none →
      checkTypeStructureMatchesCell env ts c1 = some false) ∧
    (∀ pobj, c1 = .object pobj →
      (checkTypeStructureMatchesCell env ts c1 = some true ↔
        ∃ cls, env.lookupClass ts.classname = some cls ∧ env.instanceof pobj cls = true)) ∧
    (∀ num, c1 = .int64 num →
      (checkTypeStructureMatchesCell env ts c1 = some true ↔
        ∃ cls, env.lookupClass ts.classname = some cls ∧
          env.interface_supports_int cls.name = true)) ∧
    (∀ bits, c1 = .double bits →
      (checkTypeStructureMatchesCell env ts c1 = some true ↔
        ∃ cls, env.lookupClass ts.classname = some cls ∧
          env.interface_supports_double cls.name = true)) ∧
    (∀ persistent pstr, c1 = .string persistent pstr →
      (checkTypeStructureMatchesCell env ts c1 = some true ↔
        ∃ cls, env.lookupClass ts.classname = some cls ∧
          env.interface_supports_string cls.name = true)) ∧
    (∀ persistent parr, c1 = .arr .vec persistent parr →
      (checkTypeStructureMatchesCell env ts c1 = some true ↔
        ∃ cls, env.lookupClass ts.classname = some cls ∧
          env.interface_supports_vec cls.name = true)) ∧
    (∀ persistent parr, c1 = .arr .dict persistent parr →
      (checkTypeStructureMatchesCell env ts c1 = some true ↔
        ∃ cls, env.lookupClass ts.classname = some cls ∧
          env.interface_supports_dict cls.name = true)) ∧
    (∀ persistent parr, c1 = .arr .keyset persistent parr →
      (checkTypeStructureMatchesCell env ts c1 = some true ↔
        ∃ cls, env.lookupClass ts.classname = some cls ∧
          env.interface_supports_keyset cls.name = true)) ∧
    (∀ persistent parr, c1 = .arr .array persistent parr →
      (checkTypeStructureMatchesCell env ts c1 = some true ↔
        ∃ cls, env.lookupClass ts.classname = some cls ∧
          env.interface_supports_array cls.name = true)) := by
  obtain ⟨k, n, o, c, es, fs, a⟩ := ts
  simp only [TypeStructure.nullable, TypeStructure.kind, TypeStructure.classname] at hk hn ⊢
  have hres : checkTypeStructureMatchesCell env (.mk k n o c es fs a) c1 =
      some (cellInstanceOf env c1 c) := by
    rcases hk with hk | hk <;> subst hk <;>
      exact checkTypeStructureMatchesCell_not_null env _ n o c es fs a c1 hn _
        (fun d => by unfold checkTypeStructureMatchesCellImpl; rfl)
  rw [hres]
  simp only [Option.some.injEq]
  refine ⟨trivial, ?_, ?_, ?_, ?_, ?_, ?_, ?_, ?_, ?_, ?_⟩
  · rintro (rfl | rfl | ⟨b, rfl⟩ | ⟨r, rfl⟩) <;> rfl
  · intro hl
    cases c1 with
    | arr family persistent parr => cases family <;> simp [cellInstanceOf, hl]
    | _ => simp [cellInstanceOf, hl]
  · rintro pobj rfl
    simp only [cellInstanceOf]
    cases env.lookupClass c <;> simp
  · rintro num rfl
    exact cellInstanceOf_eq_true_iff env _ c env.interface_supports_int rfl
  · rintro bits rfl
    exact cellInstanceOf_eq_true_iff env _ c env.interface_supports_double rfl
  · rintro p s rfl
    exact cellInstanceOf_eq_true_iff env _ c env.interface_supports_string rfl
  · rintro p parr rfl
    exact cellInstanceOf_eq_true_iff env _ c env.interface_supports_vec rfl
  · rintro p parr rfl
    exact cellInstanceOf_eq_true_iff env _ c env.interface_supports_dict rfl
  · rintro p parr rfl
    exact cellInstanceOf_eq_true_iff env _ c env.interface_supports_keyset rfl
  · rintro p parr rfl
    exact cellInstanceOf_eq_true_iff env _ c env.interface_supports_array rfl

/-- Witness for C21: in the registry fixture, the interface `Stringish` accepts
a string and rejects an integer, and the class `Shape` accepts an object of
class `Shape`. -/
theorem class_interface_matches_witness :
    ((TypeStructure.mk .T_interface none none "Stringish" [] [] none).kind = .T_class ∨
      (TypeStructure.mk .T_interface none none "Stringish" [] [] none).kind = .T_interface) ∧
    ¬((TypeStructure.mk .T_interface none none "Stringish" [] [] none).nullable = some true ∧
      isNullType (Cell.string false "s").m_type = true) ∧
    checkTypeStructureMatchesCell registryEnv
        (TypeStructure.mk .T_interface none none "Stringish" [] [] none)
        (Cell.string false "s") = some true ∧
    checkTypeStructureMatchesCell registryEnv
        (TypeStructure.mk .T_interface none none "Stringish" [] [] none)
        (Cell.int64 3) = some false ∧
    checkTypeStructureMatchesCell registryEnv
        (TypeStructure.mk .T_class none none "Shape" [] [] none)
        (Cell.object ⟨⟨"Shape"⟩⟩) = some true :=
  ⟨by decide, by decide,
    (class_interface_matches registryEnv
      (TypeStructure.mk .T_interface none none "Stringish" [] [] none)
      (Cell.string false "s") (by decide) (by decide)).1,
    (class_interface_matches registryEnv
      (TypeStructure.mk .T_interface none none "Stringish" [] [] none)
      (Cell.int64 3) (by decide) (by decide)).1,
    (class_interface_matches registryEnv
      (TypeStructure.mk .T_class none none "Shape" [] [] none)
      (Cell.object ⟨⟨"Shape"⟩⟩) (by decide) (by decide)).1⟩

/-- C22: for a descriptor of kind Enum and a value that the nullable test lets
through, the matcher returns a boolean (it does not abort), which is true
exactly when the class name resolves to a class of the registry and the value
is an enum value of that class; when the class name does not resolve, the
result is false. -/
theorem enum_matches (env : Env) (ts : TypeStructure) (c1 : Cell)
    (hk : ts.kind = .T_enum)
    (hn : ¬(ts.nullable = some true ∧ isNullType c1.m_type = true)) :
    (∃ b, checkTypeStructureMatchesCell env ts c1 = some b) ∧
    (checkTypeStructureMatchesCell env ts c1 = some true ↔
      ∃ cls, env.lookupClass ts.classname = some cls ∧ env.enumHasValue cls c1 = true) ∧
    (env.lookupClass ts.classname = none →
      checkTypeStructureMatchesCell env ts c1 = some false) := by
  obtain ⟨k, n, o, c, es, fs, a⟩ := ts
  simp only [TypeStructure.nullable, TypeStructure.kind, TypeStructure.classname] at hk hn ⊢
  subst hk
  have hres := checkTypeStructureMatchesCell_not_null env .T_enum n o c es fs a c1 hn
    (match env.lookupClass c with
      | some cls => env.enumHasValue cls c1
      | none => false)
    (fun d => by unfold checkTypeStructureMatchesCellImpl; rfl)
  rw [hres]
  refine ⟨⟨_, rfl⟩, ?_, ?_⟩
  · cases env.lookupClass c <;> simp
  · intro hl
    rw [hl]

/-- Witness for C22: in the registry fixture, the enum `Color` has the value 1
and not the value 5, and an unregistered enum has no value. -/
theorem enum_matches_witness :
    (TypeStructure.mk .T_enum none none "Color" [] [] none).kind = .T_enum ∧
    ¬((TypeStructure.mk .T_enum none none "Color" [] [] none).nullable = some true ∧
      isNullType (Cell.int64 1).m_type = true) ∧
    (checkTypeStructureMatchesCell registryEnv
        (TypeStructure.mk .T_enum none none "Color" [] [] none) (Cell.int64 1) = some true ↔
      ∃ cls, registryEnv.lookupClass
          (TypeStructure.mk .T_enum none none "Color" [] [] none).classname = some cls ∧
        registryEnv.enumHasValue cls (Cell.int64 1) = true) ∧
    checkTypeStructureMatchesCell registryEnv
        (TypeStructure.mk .T_enum none none "Color" [] [] none) (Cell.int64 1) = some true ∧
    checkTypeStructureMatchesCell registryEnv
        (TypeStructure.mk .T_enum none none "Color" [] [] none) (Cell.int64 5) = some false ∧
    checkTypeStructureMatchesCell registryEnv
        (TypeStructure.mk .T_enum none none "Missing" [] [] none) (Cell.int64 1) =
      some false :=
  ⟨rfl, by decide,
    (enum_matches registryEnv (TypeStructure.mk .T_enum none none "Color" [] [] none)
      (Cell.int64 1) rfl (by decide)).2.1,
    by decide, by decide,
    (enum_matches registryEnv (TypeStructure.mk .T_enum none none "Missing" [] [] none)
      (Cell.int64 1) rfl (by decide)).2.2 (by decide)⟩

/-! ## The nullable flag on values that are not null -/

/-- C25: on a value that is not of null type, the outcome of the matcher (true,
false or abort) does not depend on the `nullable` entry of the descriptor: any
two descriptors that differ only in that entry (set to true, set to false, or
absent) give the same outcome. -/
theorem nullable_flag_irrelevant_on_non_null (env : Env) (k : TypeStructure.Kind)
    (nullable nullable' osf : Option Bool) (classname : String)
    (tsElems : List TypeStructure) (tsFields : List (Key × TypeStructure))
    (auf : Option Bool) (c1 : Cell) (hv : isNullType c1.m_type = false) :
    checkTypeStructureMatchesCell env (.mk k nullable osf classname tsElems tsFields auf) c1 =
      checkTypeStructureMatchesCell env
        (.mk k nullable' osf classname tsElems tsFields auf) c1 := by
  unfold checkTypeStructureMatchesCell checkTypeStructureMatchesCellImpl
  simp only [hv, Bool.false_eq_true, and_false, if_false]
  cases k <;> simp only [afterSwitch_fst] <;> rfl

/-- Witness for C25: a nullable and a non-nullable Int descriptor on a string
and on an integer, and a nullable and a non-nullable Fun descriptor on an
integer (both abort). -/
theorem nullable_flag_irrelevant_on_non_null_witness :
    isNullType (Cell.int64 3).m_type = false ∧
    checkTypeStructureMatchesCell sampleEnv (.mk .T_int (some true) none "" [] [] none)
        (Cell.int64 3) =
      checkTypeStructureMatchesCell sampleEnv (.mk .T_int none none "" [] [] none)
        (Cell.int64 3) ∧
    checkTypeStructureMatchesCell sampleEnv (.mk .T_fun (some true) none "" [] [] none)
        (Cell.int64 3) =
      checkTypeStructureMatchesCell sampleEnv (.mk .T_fun (some false) none "" [] [] none)
        (Cell.int64 3) :=
  ⟨rfl,
    nullable_flag_irrelevant_on_non_null sampleEnv .T_int (some true) none none "" [] [] none
      (Cell.int64 3) rfl,
    nullable_flag_irrelevant_on_non_null sampleEnv .T_fun (some true) (some false) none "" []
      [] none (Cell.int64 3) rfl⟩

/-! ## Legal descriptors never abort -/

theorem errorOnList_ok (es : List TypeStructure)
    (h : errorOnIsAsExpressionInvalidTypesList es = .ok ()) :
    ∀ t ∈ es, errorOnIsAsExpressionInvalidTypes t = .ok () := by
  induction es with
  | nil => intro t ht; exact absurd ht (List.not_mem_nil _)
  | cons t0 rest ih =>
    intro t ht
    rw [errorOnIsAsExpressionInvalidTypesList] at h
    cases h0 : errorOnIsAsExpressionInvalidTypes t0 with
    | error msg => rw [h0] at h; cases h
    | ok u =>
      rw [h0] at h
      rcases List.mem_cons.mp ht with h1 | h1
      · subst h1
        exact h0
      · exact ih h t h1

theorem errorOnFields_ok (fs : List (Key × TypeStructure))
    (h : errorOnIsAsExpressionInvalidTypesFields fs = .ok ()) :
    ∀ kv ∈ fs, errorOnIsAsExpressionInvalidTypes kv.2 = .ok () := by
  induction fs with
  | nil => intro kv hkv; exact absurd hkv (List.not_mem_nil _)
  | cons kv0 rest ih =>
    intro kv hkv
    obtain ⟨k0, t0⟩ := kv0
    rw [errorOnIsAsExpressionInvalidTypesFields] at h
    cases h0 : errorOnIsAsExpressionInvalidTypes t0 with
    | error msg => rw [h0] at h; cases h
    | ok u =>
      rw [h0] at h
      rcases List.mem_cons.mp hkv with h1 | h1
      · subst h1
        exact h0
      · exact ih h kv h1

theorem afterSwitch_isSome (env : Env) (g : Bool) (ts : TypeStructure) (type : DataType)
    (r : Bool) (d : Diag) : ∃ x, afterSwitch env g ts type r d = some x := by
  unfold afterSwitch
  split <;> exact ⟨_, rfl⟩

theorem tupleIterateKV_isSome (env : Env) (g : Bool) (es : List TypeStructure)
    (hP : ∀ t ∈ es, ∀ c d, ∃ x, checkTypeStructureMatchesCellImpl env g t c d = some x) :
    ∀ (cs : List Cell) (k : Nat) (d : Diag), cs.length = es.length →
      ∃ x, tupleIterateKV env g es cs k d = some x := by
  induction es with
  | nil =>
    intro cs k d hlen
    cases cs with
    | nil => exact ⟨_, rfl⟩
    | cons c cs => simp at hlen
  | cons t es ih =>
    intro cs k d hlen
    cases cs with
    | nil => exact ⟨_, rfl⟩
    | cons c cs =>
      obtain ⟨⟨b, x⟩, hx⟩ := hP t (List.mem_cons_self _ _) c d
      simp only [tupleIterateKV, hx]
      cases b
      · exact ⟨_, rfl⟩
      · exact ih (fun t ht => hP t (List.mem_cons_of_mem _ ht)) cs (k + 1) x
          (by simpa using hlen)

theorem shapeIterateKV_isSome (env : Env) (g : Bool) (fields : ArrayData Cell)
    (fs : List (Key × TypeStructure))
    (hP : ∀ kv ∈ fs, ∀ c d, ∃ x, checkTypeStructureMatchesCellImpl env g kv.2 c d = some x) :
    ∀ (n : Nat) (d : Diag), ∃ x, shapeIterateKV env g fields fs n d = some x := by
  induction fs with
  | nil => intro n d; exact ⟨_, rfl⟩
  | cons kv rest ih =>
    intro n d
    obtain ⟨k, t⟩ := kv
    have ih' := ih (fun kv hkv => hP kv (List.mem_cons_of_mem _ hkv))
    simp only [shapeIterateKV]
    cases hf : fields.find? k with
    | none =>
      dsimp only
      split
      · exact ih' n d
      · exact ⟨_, rfl⟩
    | some c =>
      obtain ⟨⟨b, x⟩, hx⟩ := hP (k, t) (List.mem_cons_self _ _) c d
      simp only [hx]
      cases b
      · exact ⟨_, rfl⟩
      · exact ih' (n + 1) x

theorem impl_isSome_of_legal (env : Env) (g : Bool) :
    ∀ ts, errorOnIsAsExpressionInvalidTypes ts = .ok () →
      ∀ c1 d, ∃ x, checkTypeStructureMatchesCellImpl env g ts c1 d = some x := by
  refine TypeStructure.induct_ts _ ?_
  intro k n o c es fs a ihE ihF hok c1 d
  unfold errorOnIsAsExpressionInvalidTypes at hok
  unfold checkTypeStructureMatchesCellImpl
  dsimp only
  by_cases hn : n = some true ∧ isNullType c1.m_type = true
  · rw [if_pos hn]
    exact ⟨_, rfl⟩
  · rw [if_neg hn]
    cases k <;> dsimp only at hok ⊢ <;>
      first
        | exact afterSwitch_isSome _ _ _ _ _ _
        | exact ⟨_, rfl⟩
        | cases hok
        | skip
    · have hE := errorOnList_ok es hok
      cases hp : c1.parr with
      | none =>
        simp only [ite_self]
        exact afterSwitch_isSome _ _ _ _ _ _
      | some elems =>
        dsimp only
        split_ifs with h1 h2 h3
        · exact afterSwitch_isSome _ _ _ _ _ _
        · exact afterSwitch_isSome _ _ _ _ _ _
        · exact afterSwitch_isSome _ _ _ _ _ _
        · exact tupleIterateKV_isSome env g es (fun t ht => ihE t ht (hE t ht)) _ 0 d
            (by
              have : elems.size = es.length := by
                by_contra hc
                exact h3 hc
              simpa [ArrayData.size, ArrayData.values] using this)
    · have hF := errorOnFields_ok fs hok
      cases hp : c1.parr with
      | none =>
        simp only [ite_self]
        exact afterSwitch_isSome _ _ _ _ _ _
      | some fields =>
        dsimp only
        split_ifs
        · exact afterSwitch_isSome _ _ _ _ _ _
        · exact afterSwitch_isSome _ _ _ _ _ _
        · exact afterSwitch_isSome _ _ _ _ _ _
        · exact afterSwitch_isSome _ _ _ _ _ _
        · obtain ⟨⟨b, m, x⟩, hx⟩ := shapeIterateKV_isSome env g fields fs
            (fun kv hkv => ihF kv hkv (hF kv hkv)) 0 d
          rw [hx]
          cases b
          · exact afterSwitch_isSome _ _ _ _ _ _
          · exact ⟨_, rfl⟩

/-- C23: when `errorOnIsAsExpressionInvalidTypes` returns normally on a
descriptor, the matcher never reaches the abort arm on it, whatever the value:
the non-diagnostic entry point returns true or false, and the
diagnostic-producing entry point returns a boolean with its strings, through
all nested tuple elements and shape fields. Every descriptor returned by
`resolveAndVerifyTypeStructure` is such a descriptor. -/
theorem legal_descriptor_never_aborts (env : Env) (d : TypeStructure)
    (h : errorOnIsAsExpressionInvalidTypes d = .ok ()) (c1 : Cell) :
    (checkTypeStructureMatchesCell env d c1 = some true ∨
      checkTypeStructureMatchesCell env d c1 = some false) ∧
    (∀ givenType expectedType errorKey, ∃ b diag,
      checkTypeStructureMatchesCellErr env d c1 givenType expectedType errorKey =
        some (b, diag)) ∧
    (∀ resolve ts declaringCls calledCls resolved,
      resolveAndVerifyTypeStructure resolve ts declaringCls calledCls = .ok resolved →
        errorOnIsAsExpressionInvalidTypes resolved = .ok ()) := by
  refine ⟨?_, ?_, ?_⟩
  · obtain ⟨⟨b, x⟩, hx⟩ := impl_isSome_of_legal env false d h c1 Diag.empty
    unfold checkTypeStructureMatchesCell
    rw [hx]
    cases b
    · exact Or.inr rfl
    · exact Or.inl rfl
  · intro gt et ek
    obtain ⟨⟨b, x⟩, hx⟩ := impl_isSome_of_legal env true d h c1 ⟨gt, et, ek⟩
    exact ⟨b, x, hx⟩
  · intro resolve ts dc cc resolved hr
    unfold resolveAndVerifyTypeStructure at hr
    cases h1 : resolve ts cc dc with
    | error msg => rw [h1] at hr; cases hr
    | ok r =>
      rw [h1] at hr
      dsimp only at hr
      cases h2 : errorOnIsAsExpressionInvalidTypes r with
      | error msg => rw [h2] at hr; cases hr
      | ok u =>
        rw [h2] at hr
        cases hr
        exact h2

/-- Witness for C23: a legal shape with a nested tuple, on a dict whose nested
vec has a wrong element. -/
theorem legal_descriptor_never_aborts_witness :
    errorOnIsAsExpressionInvalidTypes
        (tsShape [(.str "a", tsTuple [tsOfKind .T_int, tsOfKind .T_string])] false) = .ok () ∧
    (checkTypeStructureMatchesCell sampleEnv
        (tsShape [(.str "a", tsTuple [tsOfKind .T_int, tsOfKind .T_string])] false)
        (dictOf [(.str "a", vecOf [.int64 1, .int64 2])]) = some true ∨
      checkTypeStructureMatchesCell sampleEnv
        (tsShape [(.str "a", tsTuple [tsOfKind .T_int, tsOfKind .T_string])] false)
        (dictOf [(.str "a", vecOf [.int64 1, .int64 2])]) = some false) :=
  ⟨rfl,
    (legal_descriptor_never_aborts sampleEnv
      (tsShape [(.str "a", tsTuple [tsOfKind .T_int, tsOfKind .T_string])] false) rfl
      (dictOf [(.str "a", vecOf [.int64 1, .int64 2])])).1⟩

/-! ## The count pre-checks and the result -/

theorem reachableNodes_subset_list (es : List TypeStructure) (t : TypeStructure)
    (ht : t ∈ es) : ∀ node ∈ reachableNodes t, node ∈ reachableNodesList es := by
  induction es with
  | nil => exact absurd ht (List.not_mem_nil _)
  | cons t0 rest ih =>
    intro node hnode
    rw [reachableNodesList]
    rcases List.mem_cons.mp ht with h1 | h1
    · subst h1
      exact List.mem_append_left _ hnode
    · exact List.mem_append_right _ (ih h1 node hnode)

theorem reachableNodes_subset_fields (fs : List (Key × TypeStructure))
    (kv : Key × TypeStructure) (hkv : kv ∈ fs) :
    ∀ node ∈ reachableNodes kv.2, node ∈ reachableNodesFields fs := by
  induction fs with
  | nil => exact absurd hkv (List.not_mem_nil _)
  | cons kv0 rest ih =>
    intro node hnode
    obtain ⟨k0, t0⟩ := kv0
    rw [reachableNodesFields]
    rcases List.mem_cons.mp hkv with h1 | h1
    · subst h1
      exact List.mem_append_left _ hnode
    · exact List.mem_append_right _ (ih h1 node hnode)

theorem shapeKeysDistinct_elem (n o : Option Bool) (c : String) (es : List TypeStructure)
    (fs : List (Key × TypeStructure)) (a : Option Bool)
    (hd : shapeKeysDistinct (.mk .T_tuple n o c es fs a)) :
    ∀ t ∈ es, shapeKeysDistinct t := by
  intro t ht node hnode
  apply hd
  rw [reachableNodes, if_pos rfl]
  exact List.mem_cons_of_mem _ (reachableNodes_subset_list es t ht node hnode)

theorem shapeKeysDistinct_field (n o : Option Bool) (c : String) (es : List TypeStructure)
    (fs : List (Key × TypeStructure)) (a : Option Bool)
    (hd : shapeKeysDistinct (.mk .T_shape n o c es fs a)) :
    (fs.map Prod.fst).Nodup ∧ ∀ kv ∈ fs, shapeKeysDistinct kv.2 := by
  constructor
  · have := hd (.mk .T_shape n o c es fs a) (by rw [reachableNodes]; exact List.mem_cons_self _ _)
      rfl
    exact this
  · intro kv hkv node hnode
    apply hd
    rw [reachableNodes, if_neg (by decide), if_pos rfl]
    exact List.mem_cons_of_mem _ (reachableNodes_subset_fields fs kv hkv node hnode)

theorem afterSwitch_eq_some (env : Env) (g : Bool) (ts : TypeStructure) (type : DataType)
    (r : Bool) (d : Diag) (b : Bool) (dv : Diag)
    (h : afterSwitch env g ts type r d = some (b, dv)) : b = r := by
  have := afterSwitch_fst env g ts type r d
  rw [h] at this
  simpa using this

theorem map_fst_eq_some {α β : Type} (o : Option (α × β)) (a : α)
    (h : o.map Prod.fst = some a) : ∃ b, o = some (a, b) := by
  rcases o with _ | ⟨a', b⟩
  · simp at h
  · simp at h
    subst h
    exact ⟨b, rfl⟩

/-- The tuple loop of the matcher has the result of the loop without count
pre-checks, when the elements do. -/
theorem tupleIterateKV_of_noCountChecks (env : Env) (g : Bool) (es : List TypeStructure)
    (hP : ∀ t ∈ es, ∀ c d b dv,
      checkTypeStructureMatchesCellImplNoCountChecks env g t c d = some (b, dv) →
        checkTypeStructureMatchesCell env t c = some b) :
    ∀ (cs : List Cell) (k : Nat) (d : Diag) (b : Bool) (dv : Diag),
      tupleIterateKVNoCountChecks env g es cs k d = some (b, dv) →
      ∀ g' k' d0, (tupleIterateKV env g' es cs k' d0).map Prod.fst = some b := by
  induction es with
  | nil =>
    intro cs k d b dv h g' k' d0
    cases cs <;> simp [tupleIterateKVNoCountChecks] at h
    simp [tupleIterateKV, h.1]
  | cons t es ih =>
    intro cs k d b dv h g' k' d0
    cases cs with
    | nil =>
      simp [tupleIterateKVNoCountChecks] at h
      simp [tupleIterateKV, h.1]
    | cons c cs =>
      simp only [tupleIterateKVNoCountChecks] at h
      rcases h1 : checkTypeStructureMatchesCellImplNoCountChecks env g t c d with _ | ⟨b1, x⟩
      · rw [h1] at h; simp at h
      · rw [h1] at h
        have horig := hP t (List.mem_cons_self _ _) c d b1 x h1
        rw [checkTypeStructureMatchesCell_eq_map env g' t c d0] at horig
        obtain ⟨y, hy⟩ := map_fst_eq_some _ _ horig
        simp only [tupleIterateKV, hy]
        cases b1
        · simp at h
          simp [h.1]
        · exact ih (fun t ht => hP t (List.mem_cons_of_mem _ ht)) cs (k + 1) x b dv h g'
            (k' + 1) y

/-- The shape loop of the matcher has the result and the count of the loop
without count pre-checks, when the fields do. -/
theorem shapeIterateKV_of_noCountChecks (env : Env) (g : Bool) (fields : ArrayData Cell)
    (fs : List (Key × TypeStructure))
    (hP : ∀ kv ∈ fs, ∀ c d b dv,
      checkTypeStructureMatchesCellImplNoCountChecks env g kv.2 c d = some (b, dv) →
        checkTypeStructureMatchesCell env kv.2 c = some b) :
    ∀ (n : Nat) (d : Diag) (ok : Bool) (m : Nat) (dv : Diag),
      shapeIterateKVNoCountChecks env g fields fs n d = some (ok, m, dv) →
      ∀ g' d0, ∃ x, shapeIterateKV env g' fields fs n d0 = some (ok, m, x) := by
  induction fs with
  | nil =>
    intro n d ok m dv h g' d0
    simp [shapeIterateKVNoCountChecks] at h
    exact ⟨d0, by simp [shapeIterateKV, h.1, h.2.1]⟩
  | cons kv rest ih =>
    intro n d ok m dv h g' d0
    obtain ⟨k, t⟩ := kv
    have ih' := ih (fun kv hkv => hP kv (List.mem_cons_of_mem _ hkv))
    simp only [shapeIterateKVNoCountChecks] at h
    simp only [shapeIterateKV]
    cases hf : fields.find? k with
    | none =>
      rw [hf] at h
      dsimp only at h ⊢
      split at h
      · rename_i hopt
        rw [if_pos hopt]
        exact ih' n d ok m dv h g' d0
      · rename_i hopt
        rw [if_neg hopt]
        simp at h
        exact ⟨_, by rw [h.1, h.2.1]⟩
    | some c =>
      rw [hf] at h
      dsimp only at h ⊢
      rcases h1 : checkTypeStructureMatchesCellImplNoCountChecks env g t c d with _ | ⟨b1, x⟩
      · rw [h1] at h; simp at h
      · rw [h1] at h
        have horig := hP (k, t) (List.mem_cons_self _ _) c d b1 x h1
        rw [checkTypeStructureMatchesCell_eq_map env g' t c d0] at horig
        obtain ⟨y, hy⟩ := map_fst_eq_some _ _ horig
        simp only [hy]
        cases b1
        · simp at h
          exact ⟨_, by rw [h.1, h.2.1]⟩
        · exact ih' (n + 1) x ok m dv h g' y

/-- The shape case of the matcher on a record-layout array, given the outcome
of the field loop of the matcher without count pre-checks. -/
theorem shape_record_of_noCountChecks (env : Env) (n o : Option Bool) (c : String)
    (es : List TypeStructure) (fs : List (Key × TypeStructure)) (a : Option Bool)
    (family : ArrayType) (persistent : Bool) (data : List (Key × Cell))
    (hD : (fs.map Prod.fst).Nodup) (ok : Bool) (m : Nat) (x : Diag)
    (hloop : shapeIterateKV env false ⟨.dictOrDArray, data⟩ fs 0 Diag.empty = some (ok, m, x)) :
    checkTypeStructureMatchesCell env (.mk .T_shape n o c es fs a)
        (.arr family persistent ⟨.dictOrDArray, data⟩) =
      some (ok && (shapeAllowsUnknownFields (.mk .T_shape n o c es fs a) ||
        data.length == m)) := by
  unfold checkTypeStructureMatchesCell
  rw [impl_shape_record]
  cases ok with
  | false =>
    split_ifs <;> simp only [afterSwitch_fst, hloop, Bool.false_and]
  | true =>
    have hok := shapeIterateKV_true_fields env false ⟨.dictOrDArray, data⟩ fs 0 _ m x hloop
    have hrun := shapeIterateKV_append_ok env false ⟨.dictOrDArray, data⟩ fs [] hok 0
      Diag.empty
    rw [List.append_nil, hloop] at hrun
    simp only [shapeIterateKV, Nat.zero_add, Option.some.injEq, Prod.mk.injEq, true_and] at hrun
    have hm := hrun.1
    have hreq := numRequiredFields_le_presentCount fs data (fun kv hkv => (hok kv hkv).1)
    have hle := presentCount_le fs data hD
    have hlen : (fs.filter (fun kv => (ArrayData.findIn kv.1 data).isSome)).length ≤
        fs.length := List.length_filter_le _ _
    rw [if_neg (by omega)]
    split_ifs with h2
    · rw [afterSwitch_fst]
      simp only [Bool.and_eq_true, Bool.not_eq_true', decide_eq_true_eq] at h2
      have hne : (data.length == m) = false := by
        rw [beq_eq_false_iff_ne]
        omega
      simp [h2.1, hne]
    · simp only [hloop, Option.map_some', Bool.true_and]

/-- The shape case on a value that is not a record-layout array. -/
theorem impl_shape_not_record (env : Env) (g : Bool) (n o : Option Bool) (c : String)
    (es : List TypeStructure) (fs : List (Key × TypeStructure)) (a : Option Bool)
    (c1 : Cell) (d : Diag)
    (hn : ¬(n = some true ∧ isNullType c1.m_type = true))
    (hv : ∀ arr, c1.parr = some arr → arr.isDictOrDArray = false) :
    checkTypeStructureMatchesCellImpl env g (.mk .T_shape n o c es fs a) c1 d =
      afterSwitch env g (.mk .T_shape n o c es fs a) c1.m_type false d := by
  unfold checkTypeStructureMatchesCellImpl
  dsimp only
  rw [if_neg hn]
  cases hp : c1.parr with
  | none => simp only [ite_self]
  | some arr =>
    dsimp only
    rw [hv arr hp]
    simp only [Bool.not_false, if_true, ite_self]

/-- For a descriptor whose shape nodes declare distinct keys, a result of the
matcher without count pre-checks is the result of the matcher. -/
theorem impl_of_noCountChecks (env : Env) (g : Bool) :
    ∀ ts, shapeKeysDistinct ts → ∀ c1 d b dv,
      checkTypeStructureMatchesCellImplNoCountChecks env g ts c1 d = some (b, dv) →
        checkTypeStructureMatchesCell env ts c1 = some b := by
  refine TypeStructure.induct_ts _ ?_
  intro k n o c es fs a ihE ihF hd c1 d b dv h
  by_cases hn : n = some true ∧ isNullType c1.m_type = true
  · unfold checkTypeStructureMatchesCellImplNoCountChecks at h
    dsimp only at h
    rw [if_pos hn] at h
    simp only [Option.some.injEq, Prod.mk.injEq] at h
    rw [← h.1]
    unfold checkTypeStructureMatchesCell checkTypeStructureMatchesCellImpl
    dsimp only
    rw [if_pos hn]
    rfl
  · unfold checkTypeStructureMatchesCellImplNoCountChecks at h
    dsimp only at h
    rw [if_neg hn] at h
    cases k with
    | T_tuple =>
      dsimp only at h
      cases c1 with
      | arr family persistent parr =>
        obtain ⟨layout, data⟩ := parr
        cases layout with
        | vecOrVArray =>
          simp only [isArrayLikeType_arr, Cell.parr, ArrayData.isVecOrVArray, ArrayData.size,
            ArrayData.values, Bool.not_true, Bool.false_eq_true, if_false] at h
          rw [checkTypeStructureMatchesCell_eq_map env false _ _ Diag.empty, impl_tuple_list]
          split_ifs at h ⊢ with hlen
          · rw [afterSwitch_fst, afterSwitch_eq_some _ _ _ _ _ _ _ _ h]
          · exact tupleIterateKV_of_noCountChecks env g es
              (fun t ht => ihE t ht (shapeKeysDistinct_elem n o c es fs a hd t ht))
              _ 0 d b dv h false 0 Diag.empty
        | dictOrDArray =>
          simp only [isArrayLikeType_arr, Cell.parr, ArrayData.isVecOrVArray, Bool.not_true,
            Bool.not_false, Bool.false_eq_true, if_false, if_true] at h
          rw [checkTypeStructureMatchesCell_eq_map env false _ _ Diag.empty,
            impl_tuple_not_list env false n o c es fs a _ _ hn (fun arr ha => by cases ha; rfl),
            afterSwitch_fst, afterSwitch_eq_some _ _ _ _ _ _ _ _ h]
        | other =>
          simp only [isArrayLikeType_arr, Cell.parr, ArrayData.isVecOrVArray, Bool.not_true,
            Bool.not_false, Bool.false_eq_true, if_false, if_true] at h
          rw [checkTypeStructureMatchesCell_eq_map env false _ _ Diag.empty,
            impl_tuple_not_list env false n o c es fs a _ _ hn (fun arr ha => by cases ha; rfl),
            afterSwitch_fst, afterSwitch_eq_some _ _ _ _ _ _ _ _ h]
      | _ =>
        simp only [Cell.parr, ite_self] at h
        rw [checkTypeStructureMatchesCell_eq_map env false _ _ Diag.empty,
          impl_tuple_not_list env false n o c es fs a _ _ hn (fun arr ha => by cases ha),
          afterSwitch_fst, afterSwitch_eq_some _ _ _ _ _ _ _ _ h]
    | T_shape =>
      dsimp only at h
      have hkeys := shapeKeysDistinct_field n o c es fs a hd
      cases c1 with
      | arr family persistent parr =>
        obtain ⟨layout, data⟩ := parr
        cases layout with
        | dictOrDArray =>
          simp only [isArrayLikeType_arr, Cell.parr, ArrayData.isDictOrDArray, ArrayData.size,
            Bool.not_true, Bool.false_eq_true, if_false] at h
          rcases hv : shapeIterateKVNoCountChecks env g ⟨.dictOrDArray, data⟩ fs 0 d
            with _ | ⟨ok, m, x⟩
          · rw [hv] at h
            cases h
          · rw [hv] at h
            obtain ⟨y, hy⟩ := shapeIterateKV_of_noCountChecks env g ⟨.dictOrDArray, data⟩ fs
              (fun kv hkv => ihF kv hkv (hkeys.2 kv hkv)) 0 d ok m x hv false Diag.empty
            rw [shape_record_of_noCountChecks env n o c es fs a family persistent data hkeys.1
              ok m y hy]
            cases ok with
            | false =>
              dsimp only at h
              rw [afterSwitch_eq_some _ _ _ _ _ _ _ _ h]
              rfl
            | true =>
              simp only [Option.some.injEq, Prod.mk.injEq] at h
              rw [← h.1, Bool.true_and]
        | vecOrVArray =>
          simp only [isArrayLikeType_arr, Cell.parr, ArrayData.isDictOrDArray, Bool.not_true,
            Bool.not_false, Bool.false_eq_true, if_false, if_true] at h
          rw [checkTypeStructureMatchesCell_eq_map env false _ _ Diag.empty,
            impl_shape_not_record env false n o c es fs a _ _ hn (fun arr ha => by cases ha; rfl),
            afterSwitch_fst, afterSwitch_eq_some _ _ _ _ _ _ _ _ h]
        | other =>
          simp only [isArrayLikeType_arr, Cell.parr, ArrayData.isDictOrDArray, Bool.not_true,
            Bool.not_false, Bool.false_eq_true, if_false, if_true] at h
          rw [checkTypeStructureMatchesCell_eq_map env false _ _ Diag.empty,
            impl_shape_not_record env false n o c es fs a _ _ hn (fun arr ha => by cases ha; rfl),
            afterSwitch_fst, afterSwitch_eq_some _ _ _ _ _ _ _ _ h]
      | _ =>
        simp only [Cell.parr, ite_self] at h
        rw [checkTypeStructureMatchesCell_eq_map env false _ _ Diag.empty,
          impl_shape_not_record env false n o c es fs a _ _ hn (fun arr ha => by cases ha),
          afterSwitch_fst, afterSwitch_eq_some _ _ _ _ _ _ _ _ h]
    | _ =>
      dsimp only at h
      first
        | (have hb := afterSwitch_eq_some _ _ _ _ _ _ _ _ h
           subst hb
           exact checkTypeStructureMatchesCell_not_null env _ n o c es fs a c1 hn _
             (fun d => by unfold checkTypeStructureMatchesCellImpl; rfl))
        | (simp only [Option.some.injEq, Prod.mk.injEq] at h
           rw [← h.1]
           unfold checkTypeStructureMatchesCell checkTypeStructureMatchesCellImpl
           dsimp only
           rw [if_neg hn]
           rfl)
        | cases h

/-- C24, as stated, fails: on the shape with the required fields `x` of kind
Fun and `a` of kind Int, and the dict with the single key `x`, the keys are
pairwise distinct and the matcher does not abort (the required-count pre-check
returns false), while the matcher without the pre-checks aborts in the field
`x` instead of returning false. -/
theorem count_pre_check_hides_abort :
    ([(Key.str "x", tsOfKind .T_fun), (Key.str "a", tsOfKind .T_int)].map Prod.fst).Nodup ∧
    ([(Key.str "x", Cell.int64 1)].map Prod.fst).Nodup ∧
    checkTypeStructureMatchesCell sampleEnv
        (tsShape [(.str "x", tsOfKind .T_fun), (.str "a", tsOfKind .T_int)] false)
        (dictOf [(.str "x", .int64 1)]) = some false ∧
    checkTypeStructureMatchesCellNoCountChecks sampleEnv
        (tsShape [(.str "x", tsOfKind .T_fun), (.str "a", tsOfKind .T_int)] false)
        (dictOf [(.str "x", .int64 1)]) = none := by
  refine ⟨by decide, by decide, by decide, by decide⟩

/-- C24, amended: for a descriptor whose shape nodes declare pairwise distinct
keys and any value, whenever the matcher without the two count pre-checks
returns a boolean (it does not abort), the matcher returns the same boolean,
from both entry points; the pre-checks never change a boolean result. -/
theorem count_pre_checks_keep_result (env : Env) (d : TypeStructure) (c1 : Cell) (b : Bool)
    (hd : shapeKeysDistinct d)
    (h : checkTypeStructureMatchesCellNoCountChecks env d c1 = some b) :
    checkTypeStructureMatchesCell env d c1 = some b ∧
    ∀ givenType expectedType errorKey,
      (checkTypeStructureMatchesCellErr env d c1 givenType expectedType errorKey).map
        Prod.fst = some b := by
  unfold checkTypeStructureMatchesCellNoCountChecks at h
  obtain ⟨dv, hdv⟩ := map_fst_eq_some _ _ h
  have hres := impl_of_noCountChecks env false d hd c1 _ b dv hdv
  refine ⟨hres, fun gt et ek => ?_⟩
  rw [← hres]
  exact impl_fst_indep env true false d c1 ⟨gt, et, ek⟩ Diag.empty

/-- Witness for the amended C24: the shape with a required `a` and an optional
`b` on the empty dict, where the required-count pre-check fires. -/
theorem count_pre_checks_keep_result_witness :
    shapeKeysDistinct
        (tsShape [(.str "a", tsOfKind .T_int), (.str "b", tsOptional .T_string)] false) ∧
    checkTypeStructureMatchesCellNoCountChecks sampleEnv
        (tsShape [(.str "a", tsOfKind .T_int), (.str "b", tsOptional .T_string)] false)
        (dictOf []) = some false ∧
    checkTypeStructureMatchesCell sampleEnv
        (tsShape [(.str "a", tsOfKind .T_int), (.str "b", tsOptional .T_string)] false)
        (dictOf []) = some false :=
  ⟨by unfold shapeKeysDistinct; decide, by decide,
    (count_pre_checks_keep_result sampleEnv
      (tsShape [(.str "a", tsOfKind .T_int), (.str "b", tsOptional .T_string)] false)
      (dictOf []) false (by unfold shapeKeysDistinct; decide) (by decide)).1⟩

end HPHP
